import Mathlib

/-!
Shallow embedding of the job-pipeline orchestration core of the video
post-production frontend (ProcessingPage in src/unnamed/part_002, the
subtitle polling loop in src/unnamed/part_000, and the two API client
modules src/unnamed/part_006 and
src/my_video_pro_app/frontend/src/services/api.js).

Backend requests are modelled by `Except String α`: `Except.error msg` is a
rejected promise (network/transport error), `Except.ok a` is the parsed
response data.  Each React `handleXxx` callback becomes a pure function from
the component state plus the outcomes of the requests it awaits to the new
component state.  JavaScript truthiness on optional strings is made explicit
through `jsTruthyStr`.
-/

namespace VideoPro

/-- Outcome of one pipeline stage as reported inside a job snapshot
(`job.steps.<name>` in the backend JSON): stage-local status string,
artifact path and error text, each possibly absent. -/
structure StepResult where
  status : Option String
  path : Option String
  error : Option String
  deriving DecidableEq, Repr

/-- One entry of the voice-generation history list, with the fields the
frontend reads (`voice_name`, `stability`, `clarity`, `url_path`,
`timestamp`) plus the generation parameters the spec records. -/
structure VoiceHistoryEntry where
  voice_id : String
  voice_name : Option String
  stability : Rat
  clarity : Rat
  subtitle_selection : String
  url_path : String
  timestamp : Nat
  deriving DecidableEq, Repr

/-- The full job snapshot returned by GET /job-status/:jobId: the job-level
`status` string and the per-stage step results, plus the optional
`edited_subtitle_path` read by handleCreateFinalVideo. -/
structure Job where
  status : String
  extract_audio : Option StepResult
  generate_subtitles : Option StepResult
  change_voice : Option StepResult
  clean_audio : Option StepResult
  create_final_video : Option StepResult
  edited_subtitle_path : Option String
  deriving DecidableEq, Repr

/-- A JSON value as far as the subtitle-content endpoint is concerned; the
poller checks `typeof subtitleData.subtitle_content === "string"`. -/
inductive JsVal where
  | vstr (s : String)
  | vnum (n : Int)
  | vbool (b : Bool)
  | vnull
  | vundef
  deriving DecidableEq, Repr

/-- Response data of GET /subtitle-content/:jobId. -/
structure SubtitleContentResp where
  subtitle_content : JsVal
  deriving DecidableEq, Repr

/-- The value held by the subtitleContent / editedSubtitleContent state: the
happy paths store an SRT string, while the fallback branch of
handleGenerateSubtitles stores the whole response object. -/
inductive SubtitleText where
  | str (s : String)
  | respObj (r : SubtitleContentResp)
  deriving DecidableEq, Repr

/-- An entry of the availableVoices list (id and display name). -/
structure VoiceOption where
  id : String
  name : String
  deriving DecidableEq, Repr

/-- An available-audio descriptor as used by fetchAvailableAudio (only the
`id` and `type` fields are inspected; `type` is spelled `ftype` because
`type` is a Lean keyword). -/
structure AudioFileDesc where
  id : String
  ftype : String
  deriving DecidableEq, Repr

/-- An available-subtitle descriptor as used by fetchAvailableSubtitles. -/
structure SubtitleFileDesc where
  id : String
  deriving DecidableEq, Repr

/-- JavaScript truthiness of an optional string: absent, null and the empty
string are falsy. -/
def jsTruthyStr (o : Option String) : Bool :=
  match o with
  | some s => s ≠ ""
  | none => false

/-- The component state of ProcessingPage (src/unnamed/part_002), restricted
to the useState hooks the modelled handlers read or write.  Pure
presentation state (sidebar, dialogs, translation tab, waveform comparison
payload) is not modelled. -/
structure OrchState where
  activeStep : Nat
  loading : Bool
  error : Option String
  job : Option Job
  audioPath : Option String
  subtitlePath : Option String
  subtitleContent : SubtitleText
  editedSubtitleContent : SubtitleText
  voiceCharacter : String
  voiceStability : Rat
  voiceClarity : Rat
  voiceChangedAudioPath : Option String
  voiceHistory : List VoiceHistoryEntry
  customVoiceName : String
  subtitleSelection : String
  availableVoices : List VoiceOption
  cleanedAudioPath : Option String
  enableNoiseReduction : Bool
  noiseReductionSensitivity : Rat
  enableVadCleaning : Bool
  vadAggressiveness : Nat
  fontSize : Nat
  subtitleColor : String
  subtitleBgOpacity : Nat
  useDirectFfmpeg : Bool
  finalVideoPath : Option String
  availableAudioFiles : List AudioFileDesc
  selectedAudioId : Option String
  availableSubtitleFiles : List SubtitleFileDesc
  selectedSubtitleId : Option String
  showAudioComparison : Bool
  deriving DecidableEq, Repr

/-- The hard-coded voice list initialising availableVoices. -/
def defaultVoices : List VoiceOption :=
  [⟨"21m00Tcm4TlvDq8ikWAM", "Rachel (Female)"⟩,
   ⟨"AZnzlk1XvdvUeBnXmlld", "Domi (Female)"⟩,
   ⟨"EXAVITQu4vr4xnSDxMaL", "Bella (Female)"⟩,
   ⟨"ErXwobaYiN019PkySvjV", "Antoni (Male)"⟩,
   ⟨"MF3mGyEYCl7XYWbV9V6O", "Elli (Female)"⟩,
   ⟨"TxGEqnHWrfWFTfGW9XjX", "Josh (Male)"⟩,
   ⟨"VR6AewLTigWG4xSOukaG", "Arnold (Male)"⟩,
   ⟨"pNInz6obpgDQGcFmaJgB", "Adam (Male)"⟩,
   ⟨"yoZ06aMxZJJ28mfd3POQ", "Sam (Male)"⟩]

/-- The useState initial values of ProcessingPage. -/
def initialState : OrchState :=
  { activeStep := 1
    loading := false
    error := none
    job := none
    audioPath := none
    subtitlePath := none
    subtitleContent := SubtitleText.str ""
    editedSubtitleContent := SubtitleText.str ""
    voiceCharacter := "21m00Tcm4TlvDq8ikWAM"
    voiceStability := (1 : Rat) / 2
    voiceClarity := (3 : Rat) / 4
    voiceChangedAudioPath := none
    voiceHistory := []
    customVoiceName := ""
    subtitleSelection := "original"
    availableVoices := defaultVoices
    cleanedAudioPath := none
    enableNoiseReduction := true
    noiseReductionSensitivity := (1 : Rat) / 5
    enableVadCleaning := true
    vadAggressiveness := 1
    fontSize := 24
    subtitleColor := "white"
    subtitleBgOpacity := 80
    useDirectFfmpeg := true
    finalVideoPath := none
    availableAudioFiles := []
    selectedAudioId := some "cleaned"
    availableSubtitleFiles := []
    selectedSubtitleId := none
    showAudioComparison := false }

/-- Optional-chaining read of a step artifact path
(`jobData.steps.xxx?.path`). -/
def stepPath (st : Option StepResult) : Option String :=
  st.bind (fun r => r.path)

/-- The stage table of the spec as the orchestrator implements it in
fetchJobStatus: backend status string to active step index; `none` for a
status outside the if/else chain (in which case fetchJobStatus leaves the
active step untouched). -/
def stepOfStatus? (st : String) : Option Nat :=
  if st = "uploaded" then some 1
  else if st = "audio_extracted" then some 2
  else if st = "subtitles_generated" then some 3
  else if st = "voice_changed" then some 4
  else if st = "voice_change_skipped" then some 4
  else if st = "audio_cleaned" then some 5
  else if st = "completed" then some 6
  else none

/-- Error message set by fetchJobStatus when the snapshot request fails. -/
def fetchJobStatusErrorMsg : String :=
  "Failed to load job information. Please try again."

/-- The success branch of fetchJobStatus (src/unnamed/part_002 lines
218-264): store the snapshot, then derive the active step and the artifact
path state from `jobData.status` via the if/else chain. -/
def applyStatus (s : OrchState) (jobData : Job) : OrchState :=
  let s1 := { s with job := some jobData }
  if jobData.status = "uploaded" then
    { s1 with activeStep := 1 }
  else if jobData.status = "audio_extracted" then
    { s1 with activeStep := 2, audioPath := stepPath jobData.extract_audio }
  else if jobData.status = "subtitles_generated" then
    { s1 with activeStep := 3, audioPath := stepPath jobData.extract_audio,
              subtitlePath := stepPath jobData.generate_subtitles }
  else if jobData.status = "voice_changed" then
    { s1 with activeStep := 4, audioPath := stepPath jobData.extract_audio,
              subtitlePath := stepPath jobData.generate_subtitles,
              voiceChangedAudioPath := stepPath jobData.change_voice }
  else if jobData.status = "voice_change_skipped" then
    { s1 with activeStep := 4, audioPath := stepPath jobData.extract_audio,
              subtitlePath := stepPath jobData.generate_subtitles }
  else if jobData.status = "audio_cleaned" then
    { s1 with activeStep := 5, audioPath := stepPath jobData.extract_audio,
              subtitlePath := stepPath jobData.generate_subtitles,
              voiceChangedAudioPath := stepPath jobData.change_voice,
              cleanedAudioPath := stepPath jobData.clean_audio }
  else if jobData.status = "completed" then
    { s1 with activeStep := 6, audioPath := stepPath jobData.extract_audio,
              subtitlePath := stepPath jobData.generate_subtitles,
              voiceChangedAudioPath := stepPath jobData.change_voice,
              cleanedAudioPath := stepPath jobData.clean_audio,
              finalVideoPath := stepPath jobData.create_final_video }
  else s1

/-- fetchJobStatus: fetch the authoritative snapshot and reconcile; on a
failed request only the error message is set. -/
def fetchJobStatus (s : OrchState) (r : Except String Job) : OrchState :=
  match r with
  | Except.ok jobData => applyStatus s jobData
  | Except.error _ => { s with error := some fetchJobStatusErrorMsg }

/-- Response data of POST /extract-audio/:jobId. -/
structure ExtractAudioResp where
  audio_path : Option String
  deriving DecidableEq, Repr

/-- Request outcomes awaited by handleExtractAudio: the stage action and the
follow-up snapshot fetch. -/
structure ExtractAudioEnv where
  action : Except String ExtractAudioResp
  snapshot : Except String Job
  deriving Repr

/-- Error message of handleExtractAudio. -/
def extractAudioErrorMsg : String := "Failed to extract audio. Please try again."

/-- handleExtractAudio (src/unnamed/part_002 lines 372-390): on success
store the returned audio path, advance to step 2 and re-fetch the job
snapshot; any rejection lands in the catch block, which only sets the error
message. -/
def handleExtractAudio (s : OrchState) (env : ExtractAudioEnv) : OrchState :=
  let s0 : OrchState := { s with loading := true, error := none }
  match env.action with
  | Except.error _ => { s0 with error := some extractAudioErrorMsg, loading := false }
  | Except.ok resp =>
    let s1 : OrchState := { s0 with audioPath := resp.audio_path, activeStep := 2 }
    match env.snapshot with
    | Except.ok jobData => { s1 with job := some jobData, loading := false }
    | Except.error _ => { s1 with error := some extractAudioErrorMsg, loading := false }

/-- Response data of POST /generate-subtitles/:jobId. -/
structure GenerateSubtitlesResp where
  subtitle_path : Option String
  subtitle_content : Option String
  deriving DecidableEq, Repr

/-- Request outcomes awaited by handleGenerateSubtitles: the stage action,
the direct subtitle-content API fallback, the raw-file fetch fallback
(`Except.ok (some text)` for a 2xx response body, `Except.ok none` for a
non-2xx response) and the follow-up snapshot fetch. -/
structure GenerateSubtitlesEnv where
  action : Except String GenerateSubtitlesResp
  contentApi : Except String (Option SubtitleContentResp)
  fileFetch : Except String (Option String)
  snapshot : Except String Job
  deriving Repr

/-- Error message of handleGenerateSubtitles (the code interpolates the
backend detail; the model keeps the fixed prefix). -/
def generateSubtitlesErrorMsg : String := "Failed to generate subtitles: "

/-- handleGenerateSubtitles (src/unnamed/part_002 lines 393-483): on success
store the subtitle path and content (with the API-then-file fallback chain,
whose own failures are caught and ignored), advance to step 3 regardless of
content, and re-fetch the job snapshot.  A rejected stage action or a
rejected snapshot fetch lands in the catch block. -/
def handleGenerateSubtitles (s : OrchState) (env : GenerateSubtitlesEnv) : OrchState :=
  let s0 : OrchState := { s with loading := true, error := none }
  match env.action with
  | Except.error _ => { s0 with error := some generateSubtitlesErrorMsg, loading := false }
  | Except.ok resp =>
    let s1 : OrchState :=
      if jsTruthyStr resp.subtitle_path then { s0 with subtitlePath := resp.subtitle_path }
      else s0
    let s2 : OrchState :=
      if jsTruthyStr resp.subtitle_content then
        { s1 with subtitleContent := SubtitleText.str (resp.subtitle_content.getD ""),
                  editedSubtitleContent := SubtitleText.str (resp.subtitle_content.getD "") }
      else
        match env.contentApi with
        | Except.ok (some contentObj) =>
          { s1 with subtitleContent := SubtitleText.respObj contentObj,
                    editedSubtitleContent := SubtitleText.respObj contentObj }
        | Except.ok none =>
          if jsTruthyStr resp.subtitle_path then
            match env.fileFetch with
            | Except.ok (some fileContent) =>
              { s1 with subtitleContent := SubtitleText.str fileContent,
                        editedSubtitleContent := SubtitleText.str fileContent }
            | _ => s1
          else s1
        | Except.error _ => s1
    let s3 : OrchState := { s2 with activeStep := 3 }
    match env.snapshot with
    | Except.ok jobData => { s3 with job := some jobData, loading := false }
    | Except.error _ => { s3 with error := some generateSubtitlesErrorMsg, loading := false }

/-- Response data of POST /save-edited-subtitles. -/
structure SaveSubtitlesResp where
  edited_subtitle_path : Option String
  deriving DecidableEq, Repr

/-- Error message of handleSaveEditedSubtitles. -/
def saveSubtitlesErrorMsg : String := "Failed to save edited subtitles. Please try again."

/-- The audio path handleSaveEditedSubtitles picks: the extract-audio step
path if that step is completed, else the clean-audio step path if that step
is completed. -/
def savedSubtitleAudioPath (job : Option Job) : Option String :=
  match job with
  | none => none
  | some j =>
    let cleanFallback : Option String :=
      match j.clean_audio with
      | some st2 => if st2.status = some "completed" then st2.path else none
      | none => none
    match j.extract_audio with
    | some st => if st.status = some "completed" then st.path else cleanFallback
    | none => cleanFallback

/-- handleSaveEditedSubtitles (src/unnamed/part_002 lines 680-711): resolve
the audio path from the job snapshot (throwing, hence failing, when it is
falsy), post the edited content and store the returned edited subtitle
path.  Returns the new state together with the Boolean the code returns. -/
def handleSaveEditedSubtitles (s : OrchState) (save : Except String SaveSubtitlesResp) :
    OrchState × Bool :=
  let s0 : OrchState := { s with loading := true, error := none }
  if jsTruthyStr (savedSubtitleAudioPath s0.job) = false then
    ({ s0 with error := some saveSubtitlesErrorMsg, loading := false }, false)
  else
    match save with
    | Except.ok resp =>
      ({ s0 with subtitlePath := resp.edited_subtitle_path, loading := false }, true)
    | Except.error _ =>
      ({ s0 with error := some saveSubtitlesErrorMsg, loading := false }, false)

/-- Comparison payload optionally included in a change-voice response. -/
structure ComparisonData where
  original_audio_path : String
  generated_audio_path : String
  original_duration : Rat
  generated_duration : Rat
  deriving DecidableEq, Repr

/-- Response data of POST /change-voice/:jobId. -/
structure ChangeVoiceResp where
  status : Option String
  message : Option String
  voice_changed_audio_path : Option String
  voice_history : Option (List VoiceHistoryEntry)
  comparison_data : Option ComparisonData
  deriving DecidableEq, Repr

/-- Request outcomes awaited by handleChangeVoice: the optional
save-edited-subtitles pre-step, the stage action, the voice-history fetch
used when the response omits the history (getVoiceHistory never rejects, so
it is a plain list), the follow-up snapshot fetch, and the Date.now value
used as cache buster. -/
structure ChangeVoiceEnv where
  save : Except String SaveSubtitlesResp
  action : Except String ChangeVoiceResp
  historyFetch : List VoiceHistoryEntry
  snapshot : Except String Job
  ts : Nat
  deriving Repr

/-- Progress notice handleChangeVoice shows through the error channel while
the request is in flight. -/
def voiceProgressMsg : String := "Voice generation in progress. This may take up to 2 minutes..."

/-- Error message of handleChangeVoice (the code appends backend detail and
credit advice; the model keeps the fixed prefix). -/
def changeVoiceErrorMsg : String := "Failed to change voice. "

/-- Default message for a skipped voice change without a backend message. -/
def voiceSkippedDefaultMsg : String := "Voice changing was skipped"

/-- fetchVoiceHistory (src/unnamed/part_002 lines 806-834): an empty history
leaves the state alone; otherwise the history is stored and, when the
latest entry has a truthy url_path, the voice-changed audio path is pointed
at it with a cache-busting query parameter. -/
def applyFetchVoiceHistory (s : OrchState) (history : List VoiceHistoryEntry) (ts : Nat) :
    OrchState :=
  match history with
  | [] => s
  | _ =>
    let s1 : OrchState := { s with voiceHistory := history }
    match history.getLast? with
    | some latest =>
      if latest.url_path ≠ "" then
        { s1 with voiceChangedAudioPath := some (latest.url_path ++ "?t=" ++ toString ts) }
      else s1
    | none => s1

/-- handleChangeVoice (src/unnamed/part_002 lines 486-647): save edited
subtitles first when they differ, clear the previous voice path, issue the
change-voice request, then branch on a skipped response, a response missing
the voice-changed audio path (thrown as an error), or success with history
update, optional comparison payload (whose handling dereferences the last
response history entry and therefore throws when that is absent), step
advance and snapshot re-fetch.  Every thrown error reaches the catch block,
which only sets the error message. -/
def handleChangeVoice (s : OrchState) (env : ChangeVoiceEnv) : OrchState :=
  let s0 : OrchState := { s with loading := true, error := none }
  let saved : OrchState × Bool :=
    if s0.subtitleContent = s0.editedSubtitleContent then (s0, true)
    else handleSaveEditedSubtitles s0 env.save
  match saved with
  | (s1, false) => { s1 with error := some changeVoiceErrorMsg, loading := false }
  | (s1, true) =>
    let s2 : OrchState := { s1 with voiceChangedAudioPath := none,
                                    loading := true, error := some voiceProgressMsg }
    match env.action with
    | Except.error _ => { s2 with error := some changeVoiceErrorMsg, loading := false }
    | Except.ok resp =>
      let s3 : OrchState := { s2 with error := none }
      if resp.status = some "voice_change_skipped" then
        let skipMsg : String :=
          match resp.message with
          | some m => if m ≠ "" then m else voiceSkippedDefaultMsg
          | none => voiceSkippedDefaultMsg
        let s4 : OrchState := { s3 with error := some skipMsg, voiceChangedAudioPath := none }
        let s5 : OrchState :=
          match resp.voice_history with
          | some h => { s4 with voiceHistory := h }
          | none => applyFetchVoiceHistory s4 env.historyFetch env.ts
        let s6 : OrchState := { s5 with activeStep := 4 }
        match env.snapshot with
        | Except.ok jobData => { s6 with job := some jobData, loading := false }
        | Except.error _ => { s6 with error := some changeVoiceErrorMsg, loading := false }
      else if jsTruthyStr resp.voice_changed_audio_path = false then
        { s3 with error := some changeVoiceErrorMsg, loading := false }
      else
        let vp : String := resp.voice_changed_audio_path.getD ""
        let s4 : OrchState :=
          { s3 with voiceChangedAudioPath := some (vp ++ "?t=" ++ toString env.ts) }
        let s5 : OrchState :=
          match resp.voice_history with
          | some h => { s4 with voiceHistory := h }
          | none => applyFetchVoiceHistory s4 env.historyFetch env.ts
        match resp.comparison_data with
        | some _ =>
          match resp.voice_history with
          | some h =>
            match h.getLast? with
            | some _ =>
              let s6 : OrchState := { s5 with showAudioComparison := true,
                                              customVoiceName := "", activeStep := 4 }
              match env.snapshot with
              | Except.ok jobData => { s6 with job := some jobData, loading := false }
              | Except.error _ => { s6 with error := some changeVoiceErrorMsg, loading := false }
            | none => { s5 with error := some changeVoiceErrorMsg, loading := false }
          | none => { s5 with error := some changeVoiceErrorMsg, loading := false }
        | none =>
          let s6 : OrchState := { s5 with customVoiceName := "", activeStep := 4 }
          match env.snapshot with
          | Except.ok jobData => { s6 with job := some jobData, loading := false }
          | Except.error _ => { s6 with error := some changeVoiceErrorMsg, loading := false }

/-- Request outcomes awaited by handleSkipVoiceChange: the skip action
(whose response body is unused) and the snapshot fetch started by the
un-awaited fetchJobStatus() call, which resolves after setActiveStep(4). -/
structure SkipVoiceChangeEnv where
  action : Except String Unit
  snapshot : Except String Job
  deriving Repr

/-- Error message of handleSkipVoiceChange (fixed prefix of the
interpolated message). -/
def skipVoiceChangeErrorMsg : String := "Failed to skip voice change: "

/-- handleSkipVoiceChange (src/unnamed/part_002 lines 962-977): issue the
skip request; on success set the active step to 4 and let the un-awaited
fetchJobStatus() reconcile against the fresh snapshot when it resolves. -/
def handleSkipVoiceChange (s : OrchState) (env : SkipVoiceChangeEnv) : OrchState :=
  let s0 : OrchState := { s with loading := true, error := none }
  match env.action with
  | Except.error _ => { s0 with error := some skipVoiceChangeErrorMsg, loading := false }
  | Except.ok _ =>
    let s1 : OrchState := { s0 with loading := false }
    let s2 : OrchState := { s1 with activeStep := 4 }
    fetchJobStatus s2 env.snapshot

/-- Response data of POST /clean-audio/:jobId. -/
structure CleanAudioResp where
  cleaned_audio_path : Option String
  deriving DecidableEq, Repr

/-- Request outcomes awaited by handleCleanAudio. -/
structure CleanAudioEnv where
  save : Except String SaveSubtitlesResp
  action : Except String CleanAudioResp
  snapshot : Except String Job
  deriving Repr

/-- Error message of handleCleanAudio. -/
def cleanAudioErrorMsg : String := "Failed to clean audio. Please try again."

/-- handleCleanAudio (src/unnamed/part_002 lines 714-750): save edited
subtitles first when they differ, issue the clean request, store the
cleaned path, advance to step 5 and re-fetch the snapshot.  (The trailing
fetchAvailableAudio call only refreshes the selection lists and never
throws; it is not modelled here.) -/
def handleCleanAudio (s : OrchState) (env : CleanAudioEnv) : OrchState :=
  let s0 : OrchState := { s with loading := true, error := none }
  let saved : OrchState × Bool :=
    if s0.subtitleContent = s0.editedSubtitleContent then (s0, true)
    else handleSaveEditedSubtitles s0 env.save
  match saved with
  | (s1, false) => { s1 with error := some cleanAudioErrorMsg, loading := false }
  | (s1, true) =>
    match env.action with
    | Except.error _ => { s1 with error := some cleanAudioErrorMsg, loading := false }
    | Except.ok resp =>
      let s2 : OrchState := { s1 with cleanedAudioPath := resp.cleaned_audio_path,
                                      activeStep := 5 }
      match env.snapshot with
      | Except.ok jobData => { s2 with job := some jobData, loading := false }
      | Except.error _ => { s2 with error := some cleanAudioErrorMsg, loading := false }

/-- Response data of GET /available-audio/:jobId. -/
structure AvailableAudioResp where
  audio_files : Option (List AudioFileDesc)
  deriving Repr

/-- Response data of GET /available-subtitles/:jobId. -/
structure AvailableSubtitlesResp where
  subtitle_files : Option (List SubtitleFileDesc)
  deriving Repr

/-- fetchAvailableAudio (src/unnamed/part_002 lines 979-1006): refresh the
audio list, then re-validate the selected audio id, preferring "cleaned",
then a voice-changed file, then the first file.  All its errors are caught
internally. -/
def fetchAvailableAudio (s : OrchState) (r : Except String AvailableAudioResp) : OrchState :=
  match r with
  | Except.error _ => { s with availableAudioFiles := [], selectedAudioId := none }
  | Except.ok data =>
    match data.audio_files with
    | some files =>
      let s1 : OrchState := { s with availableAudioFiles := files }
      let currentValid : Bool :=
        match s1.selectedAudioId with
        | some id0 => if id0 = "" then false else (files.find? (fun f => f.id = id0)).isSome
        | none => false
      if currentValid then s1
      else if (files.find? (fun f => f.id = "cleaned")).isSome then
        { s1 with selectedAudioId := some "cleaned" }
      else
        match files.find? (fun f => f.ftype = "voice_changed") with
        | some f => { s1 with selectedAudioId := some f.id }
        | none =>
          match files with
          | f :: _ => { s1 with selectedAudioId := some f.id }
          | [] => { s1 with selectedAudioId := none }
    | none => { s with availableAudioFiles := [], selectedAudioId := none }

/-- fetchAvailableSubtitles (src/unnamed/part_002 lines 1008-1032):
analogous to fetchAvailableAudio, preferring the "original_en_srt" file. -/
def fetchAvailableSubtitles (s : OrchState) (r : Except String AvailableSubtitlesResp) :
    OrchState :=
  match r with
  | Except.error _ => { s with availableSubtitleFiles := [], selectedSubtitleId := none }
  | Except.ok data =>
    match data.subtitle_files with
    | some files =>
      let s1 : OrchState := { s with availableSubtitleFiles := files }
      let currentValid : Bool :=
        match s1.selectedSubtitleId with
        | some id0 => if id0 = "" then false else (files.find? (fun f => f.id = id0)).isSome
        | none => false
      if currentValid then s1
      else if (files.find? (fun f => f.id = "original_en_srt")).isSome then
        { s1 with selectedSubtitleId := some "original_en_srt" }
      else
        match files with
        | f :: _ => { s1 with selectedSubtitleId := some f.id }
        | [] => { s1 with selectedSubtitleId := none }
    | none => { s with availableSubtitleFiles := [], selectedSubtitleId := none }

/-- The settings object handleCreateFinalVideo builds (src/unnamed/part_002
lines 776-788). -/
structure FinalVideoSettings where
  font_size : Nat
  subtitle_color : String
  subtitle_bg_opacity : Nat
  use_direct_ffmpeg : Bool
  audio_id : String
  subtitle_id : Option String
  subtitle_path : Option String
  deriving DecidableEq, Repr

/-- The JavaScript `a || b` fallback on an optional string. -/
def jsOrDefault (o : Option String) (d : String) : String :=
  match o with
  | some v => if v = "" then d else v
  | none => d

/-- The JavaScript `a || null` normalisation on an optional string. -/
def jsOrNull (o : Option String) : Option String :=
  match o with
  | some v => if v = "" then none else some v
  | none => none

/-- The settings handleCreateFinalVideo sends: the five style/selection
fields verbatim, audio_id defaulting to "cleaned", subtitle_id defaulting
to null, and subtitle_path only when the job has an edited subtitle path. -/
def buildFinalVideoSettings (s : OrchState) : FinalVideoSettings :=
  { font_size := s.fontSize
    subtitle_color := s.subtitleColor
    subtitle_bg_opacity := s.subtitleBgOpacity
    use_direct_ffmpeg := s.useDirectFfmpeg
    audio_id := jsOrDefault s.selectedAudioId "cleaned"
    subtitle_id := jsOrNull s.selectedSubtitleId
    subtitle_path :=
      match s.job with
      | some j => jsOrNull j.edited_subtitle_path
      | none => none }

/-- Response data of POST /create-final-video/:jobId. -/
structure FinalVideoResp where
  final_video_path : Option String
  deriving DecidableEq, Repr

/-- Request outcomes awaited by handleCreateFinalVideo: the two
list-refresh pre-steps (only run when the respective list is empty), the
stage action and the follow-up snapshot fetch. -/
structure CreateFinalVideoEnv where
  availAudio : Except String AvailableAudioResp
  availSubs : Except String AvailableSubtitlesResp
  action : Except String FinalVideoResp
  snapshot : Except String Job
  deriving Repr

/-- Error message of handleCreateFinalVideo. -/
def createFinalVideoErrorMsg : String := "Failed to create final video. Please try again."

/-- The two pre-steps of handleCreateFinalVideo: force-fetch each selection
list when it is empty. -/
def prefetchLists (t : OrchState) (ra : Except String AvailableAudioResp)
    (rs : Except String AvailableSubtitlesResp) : OrchState :=
  let t1 : OrchState := if t.availableAudioFiles = [] then fetchAvailableAudio t ra else t
  if t1.availableSubtitleFiles = [] then fetchAvailableSubtitles t1 rs else t1

/-- handleCreateFinalVideo (src/unnamed/part_002 lines 753-803): refresh
empty selection lists, post the settings built by buildFinalVideoSettings,
store the final video path, advance to step 6 and re-fetch the snapshot. -/
def handleCreateFinalVideo (s : OrchState) (env : CreateFinalVideoEnv) : OrchState :=
  let s0 : OrchState := { s with loading := true, error := none }
  let s2 : OrchState := prefetchLists s0 env.availAudio env.availSubs
  match env.action with
  | Except.error _ => { s2 with error := some createFinalVideoErrorMsg, loading := false }
  | Except.ok resp =>
    let s3 : OrchState := { s2 with finalVideoPath := resp.final_video_path, activeStep := 6 }
    match env.snapshot with
    | Except.ok jobData => { s3 with job := some jobData, loading := false }
    | Except.error _ => { s3 with error := some createFinalVideoErrorMsg, loading := false }

/-- A value appended to a FormData body. -/
inductive FormVal where
  | str (s : String)
  | num (n : Nat)
  | boolV (b : Bool)
  | nullV
  deriving DecidableEq, Repr

/-- An HTTP request as issued by an API client wrapper: the path posted to
and the FormData entries of the body, in insertion order. -/
structure HttpRequest where
  path : String
  body : List (String × FormVal)
  deriving DecidableEq, Repr

/-- The FormData built by createFinalVideo in src/unnamed/part_006 lines
203-218: every key of the settings object is appended, in the insertion
order of handleCreateFinalVideo (subtitle_path is only a key when it was
assigned). -/
def finalVideoFormData (settings : FinalVideoSettings) : List (String × FormVal) :=
  [("font_size", FormVal.num settings.font_size),
   ("subtitle_color", FormVal.str settings.subtitle_color),
   ("subtitle_bg_opacity", FormVal.num settings.subtitle_bg_opacity),
   ("use_direct_ffmpeg", FormVal.boolV settings.use_direct_ffmpeg),
   ("audio_id", FormVal.str settings.audio_id),
   ("subtitle_id", match settings.subtitle_id with
                   | some v => FormVal.str v
                   | none => FormVal.nullV)] ++
  (match settings.subtitle_path with
   | some p => [("subtitle_path", FormVal.str p)]
   | none => [])

/-- The request issued by the orchestrator client createFinalVideo
(src/unnamed/part_006 lines 203-218): posts the full settings FormData. -/
def createFinalVideoRequest (jobId : String) (settings : FinalVideoSettings) : HttpRequest :=
  { path := "/create-final-video/" ++ jobId, body := finalVideoFormData settings }

/-- The request issued by createFinalVideo in
src/my_video_pro_app/frontend/src/services/api.js lines 82-85: the function
takes only the job id and posts with no body. -/
def mvpaCreateFinalVideoRequest (jobId : String) : HttpRequest :=
  { path := "/create-final-video/" ++ jobId, body := [] }

/-- One tick of the subtitle polling loop as seen from getJobStatus: either
the fetch threw (caught and logged inside the tick), or it returned a
snapshot with the generate_subtitles step status
(`statusData.steps?.generate_subtitles?.status`) and the job-level status
string. -/
inductive PollAttempt where
  | fetchError
  | fetched (stepStatus : Option String) (jobStatus : String)
  deriving DecidableEq, Repr

/-- The completion condition of a poll tick
(`subtitleStep?.status === "completed" || statusData.status === "subtitles_generated"`). -/
def subtitlesDone (a : PollAttempt) : Bool :=
  match a with
  | PollAttempt.fetched st js => st = some "completed" || js = "subtitles_generated"
  | PollAttempt.fetchError => false

/-- The failure condition of a poll tick
(`subtitleStep?.status === "failed" || statusData.status === "generate_subtitles_failed"`). -/
def subtitlesFailed (a : PollAttempt) : Bool :=
  match a with
  | PollAttempt.fetched st js => st = some "failed" || js = "generate_subtitles_failed"
  | PollAttempt.fetchError => false

/-- How the promise returned by pollForSubtitles can settle; `pending`
covers the case where the interval is cleared but neither resolve nor
reject is ever called (the completed branch clears the interval before
awaiting getSubtitleContent, so a throw there leaves the promise pending
forever). -/
inductive PollResult where
  | resolved (content : String)
  | rejected (message : String)
  | pending
  deriving DecidableEq, Repr

/-- The poll interval passed to setInterval in pollForSubtitles. -/
def pollIntervalMs : Nat := 5000

/-- The attempt budget of pollForSubtitles. -/
def maxAttempts : Nat := 60

/-- Timeout rejection message of pollForSubtitles. -/
def pollTimeoutMsg : String :=
  "Timeout waiting for subtitles. Please check job status manually or try refreshing subtitle history."

/-- Backend-failure rejection message of pollForSubtitles. -/
def pollFailedMsg : String :=
  "Subtitle generation failed. Check job status page for more details."

/-- Missing-content rejection message of pollForSubtitles. -/
def pollBadContentMsg : String :=
  "Subtitles reported as generated, but content is missing or invalid."

/-- The body of pollForSubtitles (src/unnamed/part_000 lines 204-238) as a
recursion over setInterval ticks: `attempts` is the counter before the
tick's increment, `fuel` bounds the remaining ticks (the top-level entry
supplies enough fuel that it never runs out before the budget check), and
the result pairs the settled promise value with the number of getJobStatus
calls actually made.  `trace k` is the outcome of the k-th fetch and
`content` the outcome of the single getSubtitleContent call of the
completed branch. -/
def pollLoop (trace : Nat → PollAttempt)
    (content : Except String (Option SubtitleContentResp)) :
    Nat → Nat → PollResult × Nat
  | _, 0 => (PollResult.pending, 0)
  | attempts, fuel + 1 =>
    let a := attempts + 1
    if a > maxAttempts then (PollResult.rejected pollTimeoutMsg, 0)
    else
      match trace a with
      | PollAttempt.fetchError =>
        let r := pollLoop trace content a fuel
        (r.1, r.2 + 1)
      | PollAttempt.fetched st js =>
        if st = some "completed" || js = "subtitles_generated" then
          match content with
          | Except.ok (some data) =>
            match data.subtitle_content with
            | JsVal.vstr c => (PollResult.resolved c, 1)
            | _ => (PollResult.rejected pollBadContentMsg, 1)
          | Except.ok none => (PollResult.rejected pollBadContentMsg, 1)
          | Except.error _ => (PollResult.pending, 1)
        else if st = some "failed" || js = "generate_subtitles_failed" then
          (PollResult.rejected pollFailedMsg, 1)
        else
          let r := pollLoop trace content a fuel
          (r.1, r.2 + 1)

/-- The settled value of the pollForSubtitles promise. -/
def pollForSubtitles (trace : Nat → PollAttempt)
    (content : Except String (Option SubtitleContentResp)) : PollResult :=
  (pollLoop trace content 0 (maxAttempts + 1)).1

/-- The number of getJobStatus calls pollForSubtitles makes. -/
def pollFetchCount (trace : Nat → PollAttempt)
    (content : Except String (Option SubtitleContentResp)) : Nat :=
  (pollLoop trace content 0 (maxAttempts + 1)).2

/-- The stage-advancing actions of the pipeline. -/
inductive StageAction where
  | extractAudio
  | generateSubtitles
  | changeVoice
  | skipVoiceChange
  | cleanAudio
  | createFinalVideo
  deriving DecidableEq, Repr

/-- Abstraction of the in-flight discipline of ProcessingPage, including
every path that issues a stage request.  The six stage-step buttons are
rendered disabled while `loading` holds and their handlers run inside
setLoading(true) ... finally setLoading(false).  One further entry point
exists: the Auto-Shorten button rendered inside the error Alert whenever
the error state holds the ElevenLabs-credits message (src/unnamed/part_002
lines 1310-1381); it carries no disabled prop, and its handler never reads
or clears the error before issuing changeVoice, so the alert (and the
button) stay rendered while that request is pending.  `creditsAlert`
tracks whether the error state holds the credits message, and `inFlight`
is the multiset of stage requests currently outstanding. -/
structure PendingModel where
  loading : Bool
  creditsAlert : Bool
  inFlight : List StageAction
  deriving DecidableEq, Repr

/-- Clicking one of the six stage-step buttons: ignored while a handler is
running (every such button is disabled then); otherwise the handler starts
with setLoading(true) and setError(null) — which hides the credits alert —
and issues its request. -/
def clickStageButton (st : PendingModel) (a : StageAction) : PendingModel :=
  if st.loading then st
  else { loading := true, creditsAlert := false, inFlight := st.inFlight ++ [a] }

/-- Clicking Auto-Shorten in the credits alert and confirming its dialog
(src/unnamed/part_002 lines 1310-1381): the button is rendered whenever
the credits alert shows and has no disabled guard, so the click dispatches
regardless of loading; the handler sets loading and issues a further
change-voice request, leaving the error state — hence the rendered alert —
untouched until that promise settles. -/
def clickAutoShorten (st : PendingModel) : PendingModel :=
  if st.creditsAlert then
    { loading := true, creditsAlert := true,
      inFlight := st.inFlight ++ [StageAction.changeVoice] }
  else st

/-- One outstanding request finishing (resolve or reject): its finally
block clears loading and the request is no longer outstanding; `credits`
says whether the settled promise left the ElevenLabs-credits message in
the error state (the catch branch of handleChangeVoice with the credits
detail does, a success or any other rejection does not). -/
def settleStageAction (st : PendingModel) (credits : Bool) : PendingModel :=
  { loading := false, creditsAlert := credits, inFlight := st.inFlight.drop 1 }

/-- The UI events the in-flight discipline reacts to. -/
inductive UiEvent where
  | click (a : StageAction)
  | autoShorten
  | settle (credits : Bool)
  deriving DecidableEq, Repr

/-- One UI event step. -/
def uiStep (st : PendingModel) : UiEvent → PendingModel
  | UiEvent.click a => clickStageButton st a
  | UiEvent.autoShorten => clickAutoShorten st
  | UiEvent.settle credits => settleStageAction st credits

/-- A run of UI events from a given state. -/
def uiRun (st : PendingModel) (evs : List UiEvent) : PendingModel :=
  evs.foldl uiStep st

/-- The page mounts with no handler running, no alert and no request
outstanding. -/
def initialPending : PendingModel :=
  { loading := false, creditsAlert := false, inFlight := [] }

/-- The parameters of one change-voice request as the orchestrator builds
them (handleChangeVoice settings: voice_id, stability, clarity,
subtitle_selection, voice_name). -/
structure VoiceChangeRequest where
  voice_id : String
  stability : Rat
  clarity : Rat
  subtitle_selection : String
  voice_name : Option String
  deriving DecidableEq, Repr

/-- Modelled from the spec: the backend voice-history store behind
POST /change-voice/:jobId and GET /voice-history/:jobId is not part of
src/ (only its frontend callers are).  Per §3, a VoiceHistoryEntry is an
"append-only record of one text-to-speech generation attempt within a job:
voice identifier, voice display name, stability/clarity parameters used,
source subtitle variant used, resulting artifact locator, creation
timestamp", and entries "are never mutated or deleted".  This builds the
entry a successful change-voice request appends. -/
def voiceEntryOfRequest (req : VoiceChangeRequest) (url_path : String) (timestamp : Nat) :
    VoiceHistoryEntry :=
  { voice_id := req.voice_id
    voice_name := req.voice_name
    stability := req.stability
    clarity := req.clarity
    subtitle_selection := req.subtitle_selection
    url_path := url_path
    timestamp := timestamp }

/-- Modelled from the spec: a successful change-voice action appends one
entry to the history ("trying a new voice appends rather than
overwrites"). -/
def appendVoiceHistory (history : List VoiceHistoryEntry)
    (req : VoiceChangeRequest) (url_path : String) (timestamp : Nat) :
    List VoiceHistoryEntry :=
  history ++ [voiceEntryOfRequest req url_path timestamp]

/-- The history after a sequence of successful change-voice actions,
starting from the empty history a fresh job has. -/
def runVoiceChanges (reqs : List (VoiceChangeRequest × String × Nat)) :
    List VoiceHistoryEntry :=
  reqs.foldl (fun h r => appendVoiceHistory h r.1 r.2.1 r.2.2) []

/-- Modelled from the spec: the backend skip endpoint
POST /skip-voice-change/:jobId is not part of src/.  Per §4 it records
`steps.change_voice.status = "skipped"` (with the reason in the error
field the UI displays) and moves `job.status` forward to
voice_change_skipped without producing an artifact path. -/
def backendSkipVoiceChange (j : Job) (reason : Option String) : Job :=
  { j with status := "voice_change_skipped",
           change_voice := some { status := some "skipped", path := none, error := reason } }

/-- The guard renderVoiceChanger computes
(`job?.steps?.change_voice?.status === "skipped"`, src/unnamed/part_002
line 1210) to decide whether the skipped-warning Alert is shown; the
unattempted state shows no such alert and a failure is shown through the
separate error Alert. -/
def voiceChangeWasSkipped (job : Option Job) : Bool :=
  ((job.bind (fun j => j.change_voice)).bind (fun st => st.status)) = some "skipped"

/-- Response data of GET /voice-history/:jobId. -/
structure VoiceHistoryResp where
  voice_history : Option (List VoiceHistoryEntry)
  deriving DecidableEq, Repr

/-- The try block of getVoiceHistory in src/unnamed/part_006 lines 293-301:
await the request and return `response.data.voice_history || []`. -/
def getVoiceHistoryBody (r : Except String VoiceHistoryResp) :
    Except String (List VoiceHistoryEntry) :=
  match r with
  | Except.error e => Except.error e
  | Except.ok data => Except.ok (data.voice_history.getD [])

/-- getVoiceHistory in src/unnamed/part_006: any error of the try block is
caught and an empty list returned, so the call never rejects. -/
def getVoiceHistory (r : Except String VoiceHistoryResp) : List VoiceHistoryEntry :=
  match getVoiceHistoryBody r with
  | Except.ok h => h
  | Except.error _ => []

/-- The per-action request outcomes of one stage-advancing action of the
orchestrator, tagged by which handler consumes them. -/
inductive StageEnv where
  | extract (env : ExtractAudioEnv)
  | genSubs (env : GenerateSubtitlesEnv)
  | voice (env : ChangeVoiceEnv)
  | skipVoice (env : SkipVoiceChangeEnv)
  | clean (env : CleanAudioEnv)
  | finalVideo (env : CreateFinalVideoEnv)

/-- Dispatch one stage-advancing action to its handler. -/
def runStageAction (s : OrchState) : StageEnv → OrchState
  | StageEnv.extract env => handleExtractAudio s env
  | StageEnv.genSubs env => handleGenerateSubtitles s env
  | StageEnv.voice env => handleChangeVoice s env
  | StageEnv.skipVoice env => handleSkipVoiceChange s env
  | StageEnv.clean env => handleCleanAudio s env
  | StageEnv.finalVideo env => handleCreateFinalVideo s env

/-- A sequence of stage-advancing actions. -/
def runStages (s : OrchState) (l : List StageEnv) : OrchState :=
  l.foldl runStageAction s

/-- The post-action snapshot fetch outcome of a stage action. -/
def stageSnapshot : StageEnv → Except String Job
  | StageEnv.extract env => env.snapshot
  | StageEnv.genSubs env => env.snapshot
  | StageEnv.voice env => env.snapshot
  | StageEnv.skipVoice env => env.snapshot
  | StageEnv.clean env => env.snapshot
  | StageEnv.finalVideo env => env.snapshot

/-- The backend status string that marks a stage action as complete in the
stage table of §4. -/
def stageEntryStatus : StageEnv → String
  | StageEnv.extract _ => "audio_extracted"
  | StageEnv.genSubs _ => "subtitles_generated"
  | StageEnv.voice _ => "voice_changed"
  | StageEnv.skipVoice _ => "voice_change_skipped"
  | StageEnv.clean _ => "audio_cleaned"
  | StageEnv.finalVideo _ => "completed"

/-- A stage action succeeded: its request resolved, its response carries
what the success path dereferences, and the re-fetched snapshot reports the
corresponding stage-table status. -/
def StageSuccess : StageEnv → Prop
  | StageEnv.extract env =>
    (∃ r, env.action = Except.ok r) ∧
    (∃ j, env.snapshot = Except.ok j ∧ j.status = "audio_extracted")
  | StageEnv.genSubs env =>
    (∃ r, env.action = Except.ok r) ∧
    (∃ j, env.snapshot = Except.ok j ∧ j.status = "subtitles_generated")
  | StageEnv.voice env =>
    (∃ r, env.action = Except.ok r ∧ r.status ≠ some "voice_change_skipped" ∧
      jsTruthyStr r.voice_changed_audio_path = true ∧
      (r.comparison_data = none ∨ ∃ h, r.voice_history = some h ∧ h ≠ [])) ∧
    (∃ j, env.snapshot = Except.ok j ∧ j.status = "voice_changed")
  | StageEnv.skipVoice env =>
    env.action = Except.ok () ∧
    (∃ j, env.snapshot = Except.ok j ∧ j.status = "voice_change_skipped")
  | StageEnv.clean env =>
    (∃ r, env.action = Except.ok r) ∧
    (∃ j, env.snapshot = Except.ok j ∧ j.status = "audio_cleaned")
  | StageEnv.finalVideo env =>
    (∃ r, env.action = Except.ok r) ∧
    (∃ j, env.snapshot = Except.ok j ∧ j.status = "completed")

/-- A poll tick that hits neither exit condition of the loop: a thrown
fetch, or a snapshot whose generate-subtitles step is neither completed nor
failed. -/
def nonTerminalAt (trace : Nat → PollAttempt) (k : Nat) : Prop :=
  subtitlesDone (trace k) = false ∧ subtitlesFailed (trace k) = false

/-- A subtitle-content response whose subtitle_content field is missing or
not a string (falsy response data, or a field of any non-string type). -/
def badSubtitleContent (content : Except String (Option SubtitleContentResp)) : Prop :=
  content = Except.ok none ∨
  ∃ data, content = Except.ok (some data) ∧ ∀ c, data.subtitle_content ≠ JsVal.vstr c

/-- A completed step result with the given artifact path, for concrete
snapshots. -/
def completedStep (p : String) : StepResult :=
  { status := some "completed", path := some p, error := none }

/-- A freshly uploaded job snapshot. -/
def jobUploaded : Job :=
  { status := "uploaded", extract_audio := none, generate_subtitles := none,
    change_voice := none, clean_audio := none, create_final_video := none,
    edited_subtitle_path := none }

/-- A job snapshot after audio extraction. -/
def jobExtracted : Job :=
  { jobUploaded with status := "audio_extracted",
                     extract_audio := some (completedStep "audio.wav") }

/-- A job snapshot after subtitle generation. -/
def jobSubtitled : Job :=
  { jobExtracted with status := "subtitles_generated",
                      generate_subtitles := some (completedStep "subs.srt") }

/-- C10: the fetch-voice-history operation never rejects: a transport or
backend error is swallowed into an empty list, and that result is
indistinguishable from a job whose history is absent or empty. -/
theorem getVoiceHistory_never_rejects :
    (∀ e, getVoiceHistory (Except.error e) = []) ∧
    getVoiceHistory (Except.ok ⟨none⟩) = [] ∧
    (∀ e, getVoiceHistory (Except.error e) = getVoiceHistory (Except.ok ⟨some []⟩)) :=
  ⟨fun _ => rfl, rfl, fun _ => rfl⟩

/-- C3: the no-concurrency contract fails in the source.  After a
change-voice action rejects with the ElevenLabs-credits error, the
Auto-Shorten button in the credits alert — which has no disabled guard and
stays rendered while its own request is pending — lets a second confirmed
click issue a second change-voice request while the first is still
outstanding: two concurrent change-voice requests for the same job are
reachable.  The six stage-step buttons, by contrast, do reject a click
while a request is pending. -/
theorem auto_shorten_issues_concurrent_change_voice :
    (uiRun initialPending
      [UiEvent.click StageAction.changeVoice, UiEvent.settle true,
       UiEvent.autoShorten]).loading = true ∧
    (uiRun initialPending
      [UiEvent.click StageAction.changeVoice, UiEvent.settle true,
       UiEvent.autoShorten]).inFlight = [StageAction.changeVoice] ∧
    (uiRun initialPending
      [UiEvent.click StageAction.changeVoice, UiEvent.settle true,
       UiEvent.autoShorten]).creditsAlert = true ∧
    (uiRun initialPending
      [UiEvent.click StageAction.changeVoice, UiEvent.settle true,
       UiEvent.autoShorten, UiEvent.autoShorten]).inFlight =
      [StageAction.changeVoice, StageAction.changeVoice] ∧
    clickStageButton
      (uiRun initialPending
        [UiEvent.click StageAction.changeVoice, UiEvent.settle true,
         UiEvent.autoShorten]) StageAction.cleanAudio =
      uiRun initialPending
        [UiEvent.click StageAction.changeVoice, UiEvent.settle true,
         UiEvent.autoShorten] := by
  refine ⟨rfl, rfl, rfl, rfl, rfl⟩

/-- Folding successful change-voice actions over a starting history appends
their entries in order. -/
theorem runVoiceChanges_foldl (reqs : List (VoiceChangeRequest × String × Nat))
    (h0 : List VoiceHistoryEntry) :
    reqs.foldl (fun h r => appendVoiceHistory h r.1 r.2.1 r.2.2) h0 =
      h0 ++ reqs.map (fun r => voiceEntryOfRequest r.1 r.2.1 r.2.2) := by
  induction reqs generalizing h0 with
  | nil => simp
  | cons r rest ih =>
    simp only [List.foldl_cons, List.map_cons]
    rw [ih]
    simp [appendVoiceHistory]

/-- C6: the voice history is append-only: after N successful change-voice
actions the history has exactly N entries, every earlier state of the
history is a prefix of every later one (no entry is mutated or deleted),
and the i-th entry records exactly the parameters of the i-th request. -/
theorem voice_history_append_only :
    ∀ reqs : List (VoiceChangeRequest × String × Nat),
      runVoiceChanges reqs =
        reqs.map (fun r => voiceEntryOfRequest r.1 r.2.1 r.2.2) ∧
      (runVoiceChanges reqs).length = reqs.length ∧
      (∀ k, runVoiceChanges (reqs.take k) = (runVoiceChanges reqs).take k) ∧
      (∀ i : Nat, (runVoiceChanges reqs)[i]? =
        (reqs[i]?).map
          (fun r : VoiceChangeRequest × String × Nat =>
            voiceEntryOfRequest r.1 r.2.1 r.2.2)) := by
  intro reqs
  have hmap : runVoiceChanges reqs =
      reqs.map (fun r => voiceEntryOfRequest r.1 r.2.1 r.2.2) := by
    simpa using runVoiceChanges_foldl reqs []
  refine ⟨hmap, by simp [hmap], fun k => ?_, fun i => ?_⟩
  · have hk : runVoiceChanges (reqs.take k) =
        (reqs.take k).map (fun r => voiceEntryOfRequest r.1 r.2.1 r.2.2) := by
      simpa using runVoiceChanges_foldl (reqs.take k) []
    rw [hk, hmap, List.map_take]
  · rw [hmap, List.getElem?_map]

/-- C5: skipping voice change records steps.change_voice.status = "skipped"
with no artifact path, the orchestrator still advances to the Clean Audio
stage (active step 4) from the re-fetched snapshot, and the render guard
distinguishes the skipped state both from an unattempted stage and from any
step status other than "skipped". -/
theorem skip_voice_change_advances_without_artifact :
    ∀ (s : OrchState) (env : SkipVoiceChangeEnv) (j : Job) (reason : Option String),
      j.status = "subtitles_generated" →
      j.change_voice = none →
      env.action = Except.ok () →
      env.snapshot = Except.ok (backendSkipVoiceChange j reason) →
      (backendSkipVoiceChange j reason).change_voice =
        some { status := some "skipped", path := none, error := reason } ∧
      stepPath (backendSkipVoiceChange j reason).change_voice = none ∧
      (handleSkipVoiceChange s env).activeStep = 4 ∧
      (handleSkipVoiceChange s env).job = some (backendSkipVoiceChange j reason) ∧
      voiceChangeWasSkipped (some (backendSkipVoiceChange j reason)) = true ∧
      voiceChangeWasSkipped (some j) = false ∧
      (∀ st : StepResult, st.status ≠ some "skipped" →
        voiceChangeWasSkipped (some { j with change_voice := some st }) = false) := by
  intro s env j reason hstatus hcv haction hsnap
  refine ⟨rfl, rfl, ?_, ?_, ?_, ?_, ?_⟩
  · simp [handleSkipVoiceChange, haction, hsnap, fetchJobStatus, applyStatus,
      backendSkipVoiceChange]
  · simp [handleSkipVoiceChange, haction, hsnap, fetchJobStatus, applyStatus,
      backendSkipVoiceChange]
  · simp [voiceChangeWasSkipped, backendSkipVoiceChange]
  · simp [voiceChangeWasSkipped, hcv]
  · intro st hne
    simp [voiceChangeWasSkipped, hne]

/-- C5 witness: a concrete skip of a job with generated subtitles. -/
theorem skip_voice_change_advances_without_artifact_witness :
    (backendSkipVoiceChange jobSubtitled (some "No ElevenLabs API key")).change_voice =
      some { status := some "skipped", path := none,
             error := some "No ElevenLabs API key" } ∧
    stepPath (backendSkipVoiceChange jobSubtitled
      (some "No ElevenLabs API key")).change_voice = none ∧
    (handleSkipVoiceChange initialState
      ⟨Except.ok (),
       Except.ok (backendSkipVoiceChange jobSubtitled
         (some "No ElevenLabs API key"))⟩).activeStep = 4 ∧
    (handleSkipVoiceChange initialState
      ⟨Except.ok (),
       Except.ok (backendSkipVoiceChange jobSubtitled
         (some "No ElevenLabs API key"))⟩).job =
      some (backendSkipVoiceChange jobSubtitled (some "No ElevenLabs API key")) ∧
    voiceChangeWasSkipped
      (some (backendSkipVoiceChange jobSubtitled (some "No ElevenLabs API key"))) = true ∧
    voiceChangeWasSkipped (some jobSubtitled) = false ∧
    (∀ st : StepResult, st.status ≠ some "skipped" →
      voiceChangeWasSkipped
        (some { jobSubtitled with change_voice := some st }) = false) :=
  skip_voice_change_advances_without_artifact initialState
    ⟨Except.ok (),
     Except.ok (backendSkipVoiceChange jobSubtitled (some "No ElevenLabs API key"))⟩
    jobSubtitled (some "No ElevenLabs API key") rfl rfl rfl rfl

/-- C8 (amended): every create-final-video action issued through the
orchestrator client (handleCreateFinalVideo building the settings,
createFinalVideo in src/unnamed/part_006 appending every settings key to
the form body) carries the audio selection, subtitle selection, font size,
subtitle color, background opacity and muxing-method flag the state
supplies. -/
theorem orchestrator_final_video_request_carries_selections :
    ∀ (jobId : String) (s : OrchState) (a b : String),
      s.selectedAudioId = some a → a ≠ "" →
      s.selectedSubtitleId = some b → b ≠ "" →
      ("font_size", FormVal.num s.fontSize) ∈
        (createFinalVideoRequest jobId (buildFinalVideoSettings s)).body ∧
      ("subtitle_color", FormVal.str s.subtitleColor) ∈
        (createFinalVideoRequest jobId (buildFinalVideoSettings s)).body ∧
      ("subtitle_bg_opacity", FormVal.num s.subtitleBgOpacity) ∈
        (createFinalVideoRequest jobId (buildFinalVideoSettings s)).body ∧
      ("use_direct_ffmpeg", FormVal.boolV s.useDirectFfmpeg) ∈
        (createFinalVideoRequest jobId (buildFinalVideoSettings s)).body ∧
      ("audio_id", FormVal.str a) ∈
        (createFinalVideoRequest jobId (buildFinalVideoSettings s)).body ∧
      ("subtitle_id", FormVal.str b) ∈
        (createFinalVideoRequest jobId (buildFinalVideoSettings s)).body := by
  intro jobId s a b ha hane hb hbne
  simp [createFinalVideoRequest, finalVideoFormData, buildFinalVideoSettings,
    jsOrDefault, jsOrNull, ha, hane, hb, hbne]

/-- C8 witness: the orchestrator request for a state selecting the cleaned
audio and the original subtitles carries all six selections. -/
theorem orchestrator_final_video_request_carries_selections_witness :
    ("font_size",
      FormVal.num ({ initialState with
        selectedSubtitleId := some "original_en_srt" } : OrchState).fontSize) ∈
      (createFinalVideoRequest "job1" (buildFinalVideoSettings
        { initialState with selectedSubtitleId := some "original_en_srt" })).body ∧
    ("subtitle_color",
      FormVal.str ({ initialState with
        selectedSubtitleId := some "original_en_srt" } : OrchState).subtitleColor) ∈
      (createFinalVideoRequest "job1" (buildFinalVideoSettings
        { initialState with selectedSubtitleId := some "original_en_srt" })).body ∧
    ("subtitle_bg_opacity",
      FormVal.num ({ initialState with
        selectedSubtitleId := some "original_en_srt" } : OrchState).subtitleBgOpacity) ∈
      (createFinalVideoRequest "job1" (buildFinalVideoSettings
        { initialState with selectedSubtitleId := some "original_en_srt" })).body ∧
    ("use_direct_ffmpeg",
      FormVal.boolV ({ initialState with
        selectedSubtitleId := some "original_en_srt" } : OrchState).useDirectFfmpeg) ∈
      (createFinalVideoRequest "job1" (buildFinalVideoSettings
        { initialState with selectedSubtitleId := some "original_en_srt" })).body ∧
    ("audio_id", FormVal.str "cleaned") ∈
      (createFinalVideoRequest "job1" (buildFinalVideoSettings
        { initialState with selectedSubtitleId := some "original_en_srt" })).body ∧
    ("subtitle_id", FormVal.str "original_en_srt") ∈
      (createFinalVideoRequest "job1" (buildFinalVideoSettings
        { initialState with selectedSubtitleId := some "original_en_srt" })).body :=
  orchestrator_final_video_request_carries_selections "job1"
    { initialState with selectedSubtitleId := some "original_en_srt" }
    "cleaned" "original_en_srt" rfl (by decide) rfl (by decide)

/-- C8 counterexample: the create-final-video client in
src/my_video_pro_app/frontend/src/services/api.js takes only the job id
and posts an empty body, so its request carries none of the user
selections (no font size, color, opacity, muxing flag, audio or subtitle
selection key is present). -/
theorem mvpa_final_video_request_carries_no_selections :
    (mvpaCreateFinalVideoRequest "job1").body = [] ∧
    ("font_size", FormVal.num 24) ∉ (mvpaCreateFinalVideoRequest "job1").body ∧
    ("subtitle_color", FormVal.str "white") ∉ (mvpaCreateFinalVideoRequest "job1").body ∧
    ("subtitle_bg_opacity", FormVal.num 80) ∉ (mvpaCreateFinalVideoRequest "job1").body ∧
    ("use_direct_ffmpeg", FormVal.boolV true) ∉ (mvpaCreateFinalVideoRequest "job1").body ∧
    ("audio_id", FormVal.str "cleaned") ∉ (mvpaCreateFinalVideoRequest "job1").body ∧
    ("subtitle_id", FormVal.str "original_en_srt") ∉
      (mvpaCreateFinalVideoRequest "job1").body := by
  refine ⟨rfl, ?_, ?_, ?_, ?_, ?_, ?_⟩ <;> simp [mvpaCreateFinalVideoRequest]

/-- The list-refresh helper never touches the active step, the job snapshot
or the error message. -/
theorem fetchAvailableAudio_preserves_stage (s : OrchState)
    (r : Except String AvailableAudioResp) :
    (fetchAvailableAudio s r).activeStep = s.activeStep ∧
    (fetchAvailableAudio s r).job = s.job ∧
    (fetchAvailableAudio s r).error = s.error := by
  unfold fetchAvailableAudio
  rcases r with e | data
  · simp
  · cases hf : data.audio_files with
    | none => simp [hf]
    | some files =>
      simp only [hf]
      refine ⟨?_, ?_, ?_⟩ <;> (repeat' split) <;> rfl

/-- The subtitle-list refresh helper never touches the active step, the job
snapshot or the error message. -/
theorem fetchAvailableSubtitles_preserves_stage (s : OrchState)
    (r : Except String AvailableSubtitlesResp) :
    (fetchAvailableSubtitles s r).activeStep = s.activeStep ∧
    (fetchAvailableSubtitles s r).job = s.job ∧
    (fetchAvailableSubtitles s r).error = s.error := by
  unfold fetchAvailableSubtitles
  rcases r with e | data
  · simp
  · cases hf : data.subtitle_files with
    | none => simp [hf]
    | some files =>
      simp only [hf]
      refine ⟨?_, ?_, ?_⟩ <;> (repeat' split) <;> rfl

/-- The list pre-fetches of handleCreateFinalVideo never touch the active
step, the job snapshot or the error message. -/
theorem prefetchLists_preserves_stage (t : OrchState)
    (ra : Except String AvailableAudioResp) (rs : Except String AvailableSubtitlesResp) :
    (prefetchLists t ra rs).activeStep = t.activeStep ∧
    (prefetchLists t ra rs).job = t.job ∧
    (prefetchLists t ra rs).error = t.error := by
  unfold prefetchLists
  by_cases h1 : t.availableAudioFiles = []
  · simp only [h1, if_true, eq_self_iff_true]
    have e1 := fetchAvailableAudio_preserves_stage t ra
    by_cases h2 : (fetchAvailableAudio t ra).availableSubtitleFiles = []
    · simp only [h2, if_true, eq_self_iff_true]
      have e2 := fetchAvailableSubtitles_preserves_stage (fetchAvailableAudio t ra) rs
      exact ⟨e2.1.trans e1.1, e2.2.1.trans e1.2.1, e2.2.2.trans e1.2.2⟩
    · simp only [h2, if_false, eq_self_iff_true]
      exact e1
  · simp only [h1, if_false]
    by_cases h2 : t.availableSubtitleFiles = []
    · simp only [h2, if_true, eq_self_iff_true]
      exact fetchAvailableSubtitles_preserves_stage t rs
    · simp [h2]

/-- A rejected change-voice request (or a failing save pre-step) leaves the
active step and job snapshot at their pre-action values and surfaces the
error message. -/
theorem handleChangeVoice_error (s : OrchState) (env : ChangeVoiceEnv) (e : String)
    (h : env.action = Except.error e) :
    (handleChangeVoice s env).activeStep = s.activeStep ∧
    (handleChangeVoice s env).job = s.job ∧
    (handleChangeVoice s env).error = some changeVoiceErrorMsg := by
  unfold handleChangeVoice
  by_cases hc : s.subtitleContent = s.editedSubtitleContent
  · simp [hc, h]
  · simp only [hc]
    unfold handleSaveEditedSubtitles
    by_cases hp : jsTruthyStr (savedSubtitleAudioPath s.job) = false
    · simp [hc, hp]
    · rcases hsave : env.save with esave | resp
      · simp [hc, hp, hsave]
      · simp [hc, hp, hsave, h]

/-- A change-voice response that is not a skip and carries no truthy
voice_changed_audio_path is thrown as an error before any stage transition
is applied. -/
theorem handleChangeVoice_malformed (s : OrchState) (env : ChangeVoiceEnv)
    (r : ChangeVoiceResp) (h : env.action = Except.ok r)
    (hskip : r.status ≠ some "voice_change_skipped")
    (hpath : jsTruthyStr r.voice_changed_audio_path = false) :
    (handleChangeVoice s env).activeStep = s.activeStep ∧
    (handleChangeVoice s env).job = s.job ∧
    (handleChangeVoice s env).error = some changeVoiceErrorMsg := by
  unfold handleChangeVoice
  by_cases hc : s.subtitleContent = s.editedSubtitleContent
  · simp [hc, h, hskip, hpath]
  · simp only [hc]
    unfold handleSaveEditedSubtitles
    by_cases hp : jsTruthyStr (savedSubtitleAudioPath s.job) = false
    · simp [hc, hp]
    · rcases hsave : env.save with esave | resp
      · simp [hc, hp, hsave]
      · simp [hc, hp, hsave, h, hskip, hpath]

/-- A rejected clean-audio request (or a failing save pre-step) leaves the
active step and job snapshot unchanged and surfaces the error message. -/
theorem handleCleanAudio_error (s : OrchState) (env : CleanAudioEnv) (e : String)
    (h : env.action = Except.error e) :
    (handleCleanAudio s env).activeStep = s.activeStep ∧
    (handleCleanAudio s env).job = s.job ∧
    (handleCleanAudio s env).error = some cleanAudioErrorMsg := by
  unfold handleCleanAudio
  by_cases hc : s.subtitleContent = s.editedSubtitleContent
  · simp [hc, h]
  · simp only [hc]
    unfold handleSaveEditedSubtitles
    by_cases hp : jsTruthyStr (savedSubtitleAudioPath s.job) = false
    · simp [hc, hp]
    · rcases hsave : env.save with esave | resp
      · simp [hc, hp, hsave]
      · simp [hc, hp, hsave, h]

/-- C4 (amended): for every stage-advancing action, a rejected request
(network/transport error) applies no stage transition — the active step and
job snapshot keep their pre-action values — and an error is surfaced.  A
malformed success response blocks the transition only for the change-voice
action (a response that is not a skip and lacks the voice-changed audio
path is thrown); the other actions do not validate their success response
shape. -/
theorem hard_failure_preserves_stage :
    ∀ (s : OrchState) (e : String),
      (∀ env : ExtractAudioEnv, env.action = Except.error e →
        (handleExtractAudio s env).activeStep = s.activeStep ∧
        (handleExtractAudio s env).job = s.job ∧
        (handleExtractAudio s env).error ≠ none) ∧
      (∀ env : GenerateSubtitlesEnv, env.action = Except.error e →
        (handleGenerateSubtitles s env).activeStep = s.activeStep ∧
        (handleGenerateSubtitles s env).job = s.job ∧
        (handleGenerateSubtitles s env).error ≠ none) ∧
      (∀ env : ChangeVoiceEnv, env.action = Except.error e →
        (handleChangeVoice s env).activeStep = s.activeStep ∧
        (handleChangeVoice s env).job = s.job ∧
        (handleChangeVoice s env).error ≠ none) ∧
      (∀ env : SkipVoiceChangeEnv, env.action = Except.error e →
        (handleSkipVoiceChange s env).activeStep = s.activeStep ∧
        (handleSkipVoiceChange s env).job = s.job ∧
        (handleSkipVoiceChange s env).error ≠ none) ∧
      (∀ env : CleanAudioEnv, env.action = Except.error e →
        (handleCleanAudio s env).activeStep = s.activeStep ∧
        (handleCleanAudio s env).job = s.job ∧
        (handleCleanAudio s env).error ≠ none) ∧
      (∀ env : CreateFinalVideoEnv, env.action = Except.error e →
        (handleCreateFinalVideo s env).activeStep = s.activeStep ∧
        (handleCreateFinalVideo s env).job = s.job ∧
        (handleCreateFinalVideo s env).error ≠ none) ∧
      (∀ (env : ChangeVoiceEnv) (r : ChangeVoiceResp), env.action = Except.ok r →
        r.status ≠ some "voice_change_skipped" →
        jsTruthyStr r.voice_changed_audio_path = false →
        (handleChangeVoice s env).activeStep = s.activeStep ∧
        (handleChangeVoice s env).job = s.job ∧
        (handleChangeVoice s env).error ≠ none) := by
  intro s e
  refine ⟨?_, ?_, ?_, ?_, ?_, ?_, ?_⟩
  · intro env h
    simp [handleExtractAudio, h]
  · intro env h
    simp [handleGenerateSubtitles, h]
  · intro env h
    have hlem := handleChangeVoice_error s env e h
    exact ⟨hlem.1, hlem.2.1, by simp [hlem.2.2]⟩
  · intro env h
    simp [handleSkipVoiceChange, h]
  · intro env h
    have hlem := handleCleanAudio_error s env e h
    exact ⟨hlem.1, hlem.2.1, by simp [hlem.2.2]⟩
  · intro env h
    have hp := prefetchLists_preserves_stage
      { s with loading := true, error := none } env.availAudio env.availSubs
    unfold handleCreateFinalVideo
    simp only [h]
    exact ⟨hp.1, hp.2.1, by simp⟩
  · intro env r h hskip hpath
    have hlem := handleChangeVoice_malformed s env r h hskip hpath
    exact ⟨hlem.1, hlem.2.1, by simp [hlem.2.2]⟩

/-- C4 witness: a network error on the extract-audio request leaves the
initial state at step 1 with no snapshot and surfaces an error. -/
theorem hard_failure_preserves_stage_witness :
    (handleExtractAudio initialState
      ⟨Except.error "Network Error", Except.ok jobExtracted⟩).activeStep =
        initialState.activeStep ∧
    (handleExtractAudio initialState
      ⟨Except.error "Network Error", Except.ok jobExtracted⟩).job = initialState.job ∧
    (handleExtractAudio initialState
      ⟨Except.error "Network Error", Except.ok jobExtracted⟩).error ≠ none :=
  (hard_failure_preserves_stage initialState "Network Error").1
    ⟨Except.error "Network Error", Except.ok jobExtracted⟩ rfl

/-- C4 counterexample: a malformed success response to extract-audio (a 2xx
body with no audio_path) while the backend still reports the job as merely
uploaded: the handler advances the active step to 2 anyway and surfaces no
error, so a hard failure of the malformed-response kind does apply a stage
transition. -/
theorem malformed_extract_audio_response_advances_stage :
    (handleExtractAudio initialState
      ⟨Except.ok { audio_path := none }, Except.ok jobUploaded⟩).activeStep = 2 ∧
    initialState.activeStep = 1 ∧
    (handleExtractAudio initialState
      ⟨Except.ok { audio_path := none }, Except.ok jobUploaded⟩).error = none ∧
    jobUploaded.status = "uploaded" ∧
    stepOfStatus? jobUploaded.status = some 1 :=
  ⟨rfl, rfl, rfl, rfl, rfl⟩

/-- A run of the polling loop in which every remaining in-budget tick is
non-terminal rejects with the timeout message after making exactly one
fetch per remaining in-budget tick. -/
theorem pollLoop_timeout (trace : Nat → PollAttempt)
    (content : Except String (Option SubtitleContentResp)) :
    ∀ (fuel attempts : Nat), attempts + fuel = maxAttempts + 1 → attempts ≤ maxAttempts →
      (∀ k, attempts < k → k ≤ maxAttempts → nonTerminalAt trace k) →
      pollLoop trace content attempts fuel =
        (PollResult.rejected pollTimeoutMsg, maxAttempts - attempts) := by
  intro fuel
  induction fuel with
  | zero =>
    intro attempts hsum hle _
    exfalso
    omega
  | succ fuel ih =>
    intro attempts hsum hle hnt
    by_cases hgt : attempts + 1 > maxAttempts
    · have ha : attempts = maxAttempts := by omega
      simp [pollLoop, hgt, ha]
    · have hk := hnt (attempts + 1) (by omega) (by omega)
      have hrec := ih (attempts + 1) (by omega) (by omega)
        (fun k hk1 hk2 => hnt k (by omega) hk2)
      rcases htr : trace (attempts + 1) with _ | ⟨st, js⟩
      · simp only [pollLoop, hgt, if_false, htr]
        rw [hrec]
        refine Prod.ext rfl ?_
        simp
        omega
      · have hdone : (st = some "completed" || js = "subtitles_generated") = false := by
          have h1 := hk.1
          rw [htr] at h1
          simpa [subtitlesDone] using h1
        have hfail : (st = some "failed" || js = "generate_subtitles_failed") = false := by
          have h2 := hk.2
          rw [htr] at h2
          simpa [subtitlesFailed] using h2
        simp only [pollLoop, hgt, if_false, htr, hdone, hfail]
        rw [hrec]
        refine Prod.ext rfl ?_
        simp
        omega

/-- C2: if the backend never reports a terminal generate-subtitles status
within the budget, the polling loop makes exactly 60 fetch attempts at the
fixed 5000 ms interval and rejects with the timeout message, which differs
from the backend-failure rejection message. -/
theorem poll_times_out_after_60_attempts :
    ∀ (trace : Nat → PollAttempt) (content : Except String (Option SubtitleContentResp)),
      (∀ k, 1 ≤ k → k ≤ maxAttempts → nonTerminalAt trace k) →
      pollForSubtitles trace content = PollResult.rejected pollTimeoutMsg ∧
      pollFetchCount trace content = 60 ∧
      maxAttempts = 60 ∧
      pollIntervalMs = 5000 ∧
      pollTimeoutMsg ≠ pollFailedMsg := by
  intro trace content hnt
  have h := pollLoop_timeout trace content (maxAttempts + 1) 0 (by omega) (by omega)
    (fun k hk1 hk2 => hnt k (by omega) hk2)
  refine ⟨?_, ?_, rfl, rfl, by decide⟩
  · unfold pollForSubtitles
    rw [h]
  · unfold pollFetchCount
    rw [h]
    rfl

/-- C2 witness: a backend whose status fetch always throws: the poll
rejects with the timeout message after 60 fetches. -/
theorem poll_times_out_after_60_attempts_witness :
    pollForSubtitles (fun _ => PollAttempt.fetchError) (Except.ok none) =
      PollResult.rejected pollTimeoutMsg ∧
    pollFetchCount (fun _ => PollAttempt.fetchError) (Except.ok none) = 60 ∧
    maxAttempts = 60 ∧
    pollIntervalMs = 5000 ∧
    pollTimeoutMsg ≠ pollFailedMsg :=
  poll_times_out_after_60_attempts (fun _ => PollAttempt.fetchError) (Except.ok none)
    (fun _ _ _ => ⟨rfl, rfl⟩)

/-- A polling run that does not reject with the timeout message contains an
in-budget tick whose fetch reported an explicit completed or failed
status. -/
theorem pollLoop_terminal_of_ne_timeout (trace : Nat → PollAttempt)
    (content : Except String (Option SubtitleContentResp)) :
    ∀ (fuel attempts : Nat), attempts ≤ maxAttempts → maxAttempts + 1 ≤ attempts + fuel →
      (pollLoop trace content attempts fuel).1 ≠ PollResult.rejected pollTimeoutMsg →
      ∃ k, attempts < k ∧ k ≤ maxAttempts ∧
        (subtitlesDone (trace k) = true ∨ subtitlesFailed (trace k) = true) := by
  intro fuel
  induction fuel with
  | zero =>
    intro attempts hle hsum _
    exfalso
    omega
  | succ fuel ih =>
    intro attempts hle hsum hne
    by_cases hgt : attempts + 1 > maxAttempts
    · exfalso
      apply hne
      simp [pollLoop, hgt]
    · rcases htr : trace (attempts + 1) with _ | ⟨st, js⟩
      · simp only [pollLoop, hgt, if_false, htr] at hne
        obtain ⟨k, hk1, hk2, hk3⟩ := ih (attempts + 1) (by omega) (by omega) hne
        exact ⟨k, by omega, hk2, hk3⟩
      · by_cases hdone : (st = some "completed" || js = "subtitles_generated") = true
        · exact ⟨attempts + 1, by omega, by omega,
            Or.inl (by simp [subtitlesDone, htr, hdone])⟩
        · by_cases hfail : (st = some "failed" || js = "generate_subtitles_failed") = true
          · exact ⟨attempts + 1, by omega, by omega,
              Or.inr (by simp [subtitlesFailed, htr, hfail])⟩
          · simp only [Bool.not_eq_true] at hdone hfail
            simp only [pollLoop, hgt, if_false, htr] at hne
            simp only [hdone, hfail, if_false] at hne
            obtain ⟨k, hk1, hk2, hk3⟩ := ih (attempts + 1) (by omega) (by omega) hne
            exact ⟨k, by omega, hk2, hk3⟩

/-- C7: a poll tick whose fetch throws does not terminate the loop: the
loop simply continues with the next tick, a throwing tick satisfies
neither exit condition, and a run can end other than by the 60-attempt
budget only because some in-budget tick reported an explicit completed or
failed status. -/
theorem poll_survives_transient_fetch_errors :
    ∀ (trace : Nat → PollAttempt) (content : Except String (Option SubtitleContentResp)),
      (∀ (attempts fuel : Nat), attempts + 1 ≤ maxAttempts →
        trace (attempts + 1) = PollAttempt.fetchError →
        (pollLoop trace content attempts (fuel + 1)).1 =
          (pollLoop trace content (attempts + 1) fuel).1) ∧
      (∀ k, trace k = PollAttempt.fetchError →
        subtitlesDone (trace k) = false ∧ subtitlesFailed (trace k) = false) ∧
      (pollForSubtitles trace content ≠ PollResult.rejected pollTimeoutMsg →
        ∃ k, 1 ≤ k ∧ k ≤ maxAttempts ∧
          (subtitlesDone (trace k) = true ∨ subtitlesFailed (trace k) = true)) := by
  intro trace content
  refine ⟨?_, ?_, ?_⟩
  · intro attempts fuel hle htr
    have hgt : ¬(attempts + 1 > maxAttempts) := by omega
    simp [pollLoop, hgt, htr]
  · intro k htr
    constructor <;> simp [subtitlesDone, subtitlesFailed, htr]
  · intro hne
    obtain ⟨k, hk1, hk2, hk3⟩ := pollLoop_terminal_of_ne_timeout trace content
      (maxAttempts + 1) 0 (by omega) (by omega) hne
    exact ⟨k, by omega, hk2, hk3⟩

/-- C7 witness: fetch errors on the first two ticks do not stop the loop; a
backend failure on the third tick ends it, and the run indeed contains an
in-budget terminal tick. -/
theorem poll_survives_transient_fetch_errors_witness :
    ∃ k, 1 ≤ k ∧ k ≤ maxAttempts ∧
      (subtitlesDone ((fun n => if n = 3 then PollAttempt.fetched (some "failed") "audio_extracted"
          else PollAttempt.fetchError) k) = true ∨
       subtitlesFailed ((fun n => if n = 3 then PollAttempt.fetched (some "failed") "audio_extracted"
          else PollAttempt.fetchError) k) = true) :=
  (poll_survives_transient_fetch_errors
    (fun n => if n = 3 then PollAttempt.fetched (some "failed") "audio_extracted"
      else PollAttempt.fetchError)
    (Except.ok none)).2.2 (by decide)

/-- A polling run resolves with some content only if the single
subtitle-content fetch of its completed branch returned a response object
whose subtitle_content field is exactly that string. -/
theorem pollLoop_resolved_content (trace : Nat → PollAttempt)
    (content : Except String (Option SubtitleContentResp)) :
    ∀ (fuel attempts : Nat) (s : String),
      (pollLoop trace content attempts fuel).1 = PollResult.resolved s →
      ∃ data, content = Except.ok (some data) ∧ data.subtitle_content = JsVal.vstr s := by
  intro fuel
  induction fuel with
  | zero =>
    intro attempts s h
    simp [pollLoop] at h
  | succ fuel ih =>
    intro attempts s h
    by_cases hgt : attempts + 1 > maxAttempts
    · simp [pollLoop, hgt] at h
    · rcases htr : trace (attempts + 1) with _ | ⟨st, js⟩
      · simp only [pollLoop, hgt, if_false, htr] at h
        exact ih (attempts + 1) s h
      · by_cases hdone : (st = some "completed" || js = "subtitles_generated") = true
        · simp only [pollLoop, hgt, if_false, htr, hdone, if_true] at h
          rcases content with e | cdata
          · simp at h
          · rcases cdata with _ | data
            · simp at h
            · rcases data with ⟨sc⟩
              cases sc with
              | vstr c =>
                simp at h
                exact ⟨⟨JsVal.vstr c⟩, rfl, by rw [h]⟩
              | vnum n => simp at h
              | vbool b => simp at h
              | vnull => simp at h
              | vundef => simp at h
        · by_cases hfail : (st = some "failed" || js = "generate_subtitles_failed") = true
          · simp only [Bool.not_eq_true] at hdone
            simp [pollLoop, hgt, htr, hdone, hfail] at h
          · simp only [Bool.not_eq_true] at hdone hfail
            simp only [pollLoop, hgt, if_false, htr, hdone, hfail] at h
            exact ih (attempts + 1) s h

/-- If the first terminal tick of a polling run reports completion but the
subtitle-content fetch returns a bad response (falsy data or a non-string
subtitle_content field), the run rejects with the missing-content
message. -/
theorem pollLoop_bad_content_rejects (trace : Nat → PollAttempt)
    (content : Except String (Option SubtitleContentResp))
    (hbad : badSubtitleContent content) :
    ∀ (fuel attempts k : Nat), attempts < k → k ≤ attempts + fuel → k ≤ maxAttempts →
      (∀ j, attempts < j → j < k → nonTerminalAt trace j) →
      subtitlesDone (trace k) = true →
      (pollLoop trace content attempts fuel).1 = PollResult.rejected pollBadContentMsg := by
  intro fuel
  induction fuel with
  | zero =>
    intro attempts k h1 h2 _ _ _
    exfalso
    omega
  | succ fuel ih =>
    intro attempts k h1 h2 h3 hnt hdone
    have hgt : ¬(attempts + 1 > maxAttempts) := by omega
    by_cases heq : attempts + 1 = k
    · rcases htr : trace (attempts + 1) with _ | ⟨st, js⟩
      · rw [← heq, htr] at hdone
        simp [subtitlesDone] at hdone
      · have hcond : (st = some "completed" || js = "subtitles_generated") = true := by
          rw [← heq, htr] at hdone
          simpa [subtitlesDone] using hdone
        simp only [pollLoop, hgt, if_false, htr, hcond, if_true]
        rcases hbad with hnone | ⟨data, hdata, hne⟩
        · rw [hnone]
        · rw [hdata]
          rcases data with ⟨sc⟩
          cases sc with
          | vstr c => exact absurd rfl (hne c)
          | vnum n => rfl
          | vbool b => rfl
          | vnull => rfl
          | vundef => rfl
    · have hj := hnt (attempts + 1) (by omega) (by omega)
      rcases htr : trace (attempts + 1) with _ | ⟨st, js⟩
      · simp only [pollLoop, hgt, if_false, htr]
        exact ih (attempts + 1) k (by omega) (by omega) h3
          (fun j hj1 hj2 => hnt j (by omega) hj2) hdone
      · have hd : (st = some "completed" || js = "subtitles_generated") = false := by
          have := hj.1
          rw [htr] at this
          simpa [subtitlesDone] using this
        have hf : (st = some "failed" || js = "generate_subtitles_failed") = false := by
          have := hj.2
          rw [htr] at this
          simpa [subtitlesFailed] using this
        simp only [pollLoop, hgt, if_false, htr, hd, hf]
        exact ih (attempts + 1) k (by omega) (by omega) h3
          (fun j hj1 hj2 => hnt j (by omega) hj2) hdone

/-- C9: the polling loop resolves only with a string subtitle content taken
verbatim from the content response; if the first terminal tick reports
completion but the content response is falsy or its subtitle_content field
is not a string, the loop rejects with the missing-content error instead of
resolving. -/
theorem poll_resolves_only_with_string_content :
    ∀ (trace : Nat → PollAttempt) (content : Except String (Option SubtitleContentResp)),
      (∀ s, pollForSubtitles trace content = PollResult.resolved s →
        ∃ data, content = Except.ok (some data) ∧ data.subtitle_content = JsVal.vstr s) ∧
      (∀ k, 1 ≤ k → k ≤ maxAttempts →
        (∀ j, 1 ≤ j → j < k → nonTerminalAt trace j) →
        subtitlesDone (trace k) = true →
        badSubtitleContent content →
        pollForSubtitles trace content = PollResult.rejected pollBadContentMsg ∧
        (∀ s, PollResult.rejected pollBadContentMsg ≠ PollResult.resolved s)) := by
  intro trace content
  constructor
  · intro s h
    exact pollLoop_resolved_content trace content (maxAttempts + 1) 0 s h
  · intro k hk1 hk2 hnt hdone hbad
    constructor
    · unfold pollForSubtitles
      exact pollLoop_bad_content_rejects trace content hbad (maxAttempts + 1) 0 k
        (by omega) (by omega) hk2 (fun j hj1 hj2 => hnt j (by omega) hj2) hdone
    · intro s
      simp

/-- C9 witness: the first poll tick reports completion but the content
response carries a null subtitle_content: the loop rejects with the
missing-content message. -/
theorem poll_resolves_only_with_string_content_witness :
    pollForSubtitles (fun _ => PollAttempt.fetched (some "completed") "generating_subtitles")
        (Except.ok (some ⟨JsVal.vnull⟩)) =
      PollResult.rejected pollBadContentMsg ∧
    (∀ s, PollResult.rejected pollBadContentMsg ≠ PollResult.resolved s) :=
  (poll_resolves_only_with_string_content
    (fun _ => PollAttempt.fetched (some "completed") "generating_subtitles")
    (Except.ok (some ⟨JsVal.vnull⟩))).2 1 (by decide) (by decide)
    (fun j hj1 hj2 => absurd (Nat.lt_of_lt_of_le hj2 hj1) (by omega))
    (by decide)
    (Or.inr ⟨⟨JsVal.vnull⟩, rfl, fun c h => JsVal.noConfusion h⟩)

/-- applyStatus never touches the subtitle editor state. -/
theorem applyStatus_content (s : OrchState) (j : Job) :
    (applyStatus s j).subtitleContent = s.subtitleContent ∧
    (applyStatus s j).editedSubtitleContent = s.editedSubtitleContent := by
  unfold applyStatus
  (repeat' split) <;> exact ⟨rfl, rfl⟩

/-- fetchJobStatus never touches the subtitle editor state. -/
theorem fetchJobStatus_content (s : OrchState) (r : Except String Job) :
    (fetchJobStatus s r).subtitleContent = s.subtitleContent ∧
    (fetchJobStatus s r).editedSubtitleContent = s.editedSubtitleContent := by
  unfold fetchJobStatus
  rcases r with e | j
  · exact ⟨rfl, rfl⟩
  · exact applyStatus_content s j

/-- applyFetchVoiceHistory never touches the subtitle editor state. -/
theorem applyFetchVoiceHistory_content (s : OrchState) (h : List VoiceHistoryEntry) (ts : Nat) :
    (applyFetchVoiceHistory s h ts).subtitleContent = s.subtitleContent ∧
    (applyFetchVoiceHistory s h ts).editedSubtitleContent = s.editedSubtitleContent := by
  unfold applyFetchVoiceHistory
  (repeat' split) <;> exact ⟨rfl, rfl⟩

/-- fetchAvailableAudio never touches the subtitle editor state. -/
theorem fetchAvailableAudio_content (s : OrchState) (r : Except String AvailableAudioResp) :
    (fetchAvailableAudio s r).subtitleContent = s.subtitleContent ∧
    (fetchAvailableAudio s r).editedSubtitleContent = s.editedSubtitleContent := by
  unfold fetchAvailableAudio
  rcases r with e | data
  · exact ⟨rfl, rfl⟩
  · cases hf : data.audio_files with
    | none => simp [hf]
    | some files =>
      simp only [hf]
      refine ⟨?_, ?_⟩ <;> (repeat' split) <;> rfl

/-- fetchAvailableSubtitles never touches the subtitle editor state. -/
theorem fetchAvailableSubtitles_content (s : OrchState)
    (r : Except String AvailableSubtitlesResp) :
    (fetchAvailableSubtitles s r).subtitleContent = s.subtitleContent ∧
    (fetchAvailableSubtitles s r).editedSubtitleContent = s.editedSubtitleContent := by
  unfold fetchAvailableSubtitles
  rcases r with e | data
  · exact ⟨rfl, rfl⟩
  · cases hf : data.subtitle_files with
    | none => simp [hf]
    | some files =>
      simp only [hf]
      refine ⟨?_, ?_⟩ <;> (repeat' split) <;> rfl

/-- The final-video pre-fetches never touch the subtitle editor state. -/
theorem prefetchLists_content (t : OrchState) (ra : Except String AvailableAudioResp)
    (rs : Except String AvailableSubtitlesResp) :
    (prefetchLists t ra rs).subtitleContent = t.subtitleContent ∧
    (prefetchLists t ra rs).editedSubtitleContent = t.editedSubtitleContent := by
  unfold prefetchLists
  by_cases h1 : t.availableAudioFiles = []
  · simp only [h1, if_true, eq_self_iff_true]
    have e1 := fetchAvailableAudio_content t ra
    by_cases h2 : (fetchAvailableAudio t ra).availableSubtitleFiles = []
    · simp only [h2, if_true, eq_self_iff_true]
      have e2 := fetchAvailableSubtitles_content (fetchAvailableAudio t ra) rs
      exact ⟨e2.1.trans e1.1, e2.2.trans e1.2⟩
    · simp only [h2, if_false, eq_self_iff_true]
      exact e1
  · simp only [h1, if_false]
    by_cases h2 : t.availableSubtitleFiles = []
    · simp only [h2, if_true, eq_self_iff_true]
      exact fetchAvailableSubtitles_content t rs
    · simp [h2]

/-- Projection form of fetchJobStatus_content. -/
theorem fetchJobStatus_subtitleContent (s : OrchState) (r : Except String Job) :
    (fetchJobStatus s r).subtitleContent = s.subtitleContent :=
  (fetchJobStatus_content s r).1

/-- Projection form of fetchJobStatus_content. -/
theorem fetchJobStatus_editedSubtitleContent (s : OrchState) (r : Except String Job) :
    (fetchJobStatus s r).editedSubtitleContent = s.editedSubtitleContent :=
  (fetchJobStatus_content s r).2

/-- Projection form of applyFetchVoiceHistory_content. -/
theorem applyFetchVoiceHistory_subtitleContent (s : OrchState)
    (h : List VoiceHistoryEntry) (ts : Nat) :
    (applyFetchVoiceHistory s h ts).subtitleContent = s.subtitleContent :=
  (applyFetchVoiceHistory_content s h ts).1

/-- Projection form of applyFetchVoiceHistory_content. -/
theorem applyFetchVoiceHistory_editedSubtitleContent (s : OrchState)
    (h : List VoiceHistoryEntry) (ts : Nat) :
    (applyFetchVoiceHistory s h ts).editedSubtitleContent = s.editedSubtitleContent :=
  (applyFetchVoiceHistory_content s h ts).2

/-- Projection form of prefetchLists_content. -/
theorem prefetchLists_subtitleContent (t : OrchState) (ra : Except String AvailableAudioResp)
    (rs : Except String AvailableSubtitlesResp) :
    (prefetchLists t ra rs).subtitleContent = t.subtitleContent :=
  (prefetchLists_content t ra rs).1

/-- Projection form of prefetchLists_content. -/
theorem prefetchLists_editedSubtitleContent (t : OrchState)
    (ra : Except String AvailableAudioResp) (rs : Except String AvailableSubtitlesResp) :
    (prefetchLists t ra rs).editedSubtitleContent = t.editedSubtitleContent :=
  (prefetchLists_content t ra rs).2

/-- Every stage-advancing handler keeps the subtitle editor in sync when it
was in sync before the action (the only writes either set both fields to
the same value or touch neither). -/
theorem runStageAction_content (s : OrchState) (e : StageEnv)
    (hc : s.subtitleContent = s.editedSubtitleContent) :
    (runStageAction s e).subtitleContent = (runStageAction s e).editedSubtitleContent := by
  cases e with
  | extract env =>
    simp only [runStageAction]
    unfold handleExtractAudio
    (repeat' split) <;> simp [hc]
  | genSubs env =>
    simp only [runStageAction]
    unfold handleGenerateSubtitles
    (repeat' split) <;> simp [hc]
  | voice env =>
    simp only [runStageAction]
    unfold handleChangeVoice
    simp only [hc, eq_self_iff_true, if_true]
    (repeat' split) <;>
      simp [hc, applyFetchVoiceHistory_subtitleContent,
        applyFetchVoiceHistory_editedSubtitleContent]
  | skipVoice env =>
    simp only [runStageAction]
    unfold handleSkipVoiceChange
    split <;>
      simp [hc, fetchJobStatus_subtitleContent, fetchJobStatus_editedSubtitleContent]
  | clean env =>
    simp only [runStageAction]
    unfold handleCleanAudio
    simp only [hc, eq_self_iff_true, if_true]
    (repeat' split) <;> simp [hc]
  | finalVideo env =>
    simp only [runStageAction]
    unfold handleCreateFinalVideo
    (repeat' split) <;>
      simp [hc, prefetchLists_subtitleContent, prefetchLists_editedSubtitleContent]

/-- A successful extract-audio action stores the fresh snapshot and sets
step 2. -/
theorem handleExtractAudio_success (s : OrchState) (env : ExtractAudioEnv)
    (r : ExtractAudioResp) (j : Job) (ha : env.action = Except.ok r)
    (hs : env.snapshot = Except.ok j) :
    (handleExtractAudio s env).job = some j ∧
    (handleExtractAudio s env).activeStep = 2 := by
  simp [handleExtractAudio, ha, hs]

/-- A successful generate-subtitles action stores the fresh snapshot and
sets step 3. -/
theorem handleGenerateSubtitles_success (s : OrchState) (env : GenerateSubtitlesEnv)
    (r : GenerateSubtitlesResp) (j : Job) (ha : env.action = Except.ok r)
    (hs : env.snapshot = Except.ok j) :
    (handleGenerateSubtitles s env).job = some j ∧
    (handleGenerateSubtitles s env).activeStep = 3 := by
  unfold handleGenerateSubtitles
  simp only [ha, hs]
  simp

/-- A successful change-voice action (no skip, a truthy voice path, and a
usable comparison payload when one is present) stores the fresh snapshot
and sets step 4, provided the edited subtitles were already saved. -/
theorem handleChangeVoice_success (s : OrchState) (env : ChangeVoiceEnv)
    (r : ChangeVoiceResp) (j : Job)
    (hc : s.subtitleContent = s.editedSubtitleContent)
    (ha : env.action = Except.ok r)
    (hskip : r.status ≠ some "voice_change_skipped")
    (hpath : jsTruthyStr r.voice_changed_audio_path = true)
    (hcomp : r.comparison_data = none ∨ ∃ hist, r.voice_history = some hist ∧ hist ≠ [])
    (hs : env.snapshot = Except.ok j) :
    (handleChangeVoice s env).job = some j ∧
    (handleChangeVoice s env).activeStep = 4 := by
  unfold handleChangeVoice
  simp only [hc, eq_self_iff_true, if_true, ha]
  rcases hcd : r.comparison_data with _ | cd
  · simp [hskip, hpath, hcd, hs]
  · rcases hcomp with hnone | ⟨hist, hh, hne⟩
    · rw [hcd] at hnone
      exact absurd hnone (by simp)
    · have hlast : hist.getLast?.isSome := List.getLast?_isSome.mpr hne
      obtain ⟨x, hx⟩ := Option.isSome_iff_exists.mp hlast
      simp [hskip, hpath, hcd, hh, hx, hs]

/-- A successful skip-voice-change action whose fresh snapshot reports
voice_change_skipped stores the snapshot and sets step 4. -/
theorem handleSkipVoiceChange_success (s : OrchState) (env : SkipVoiceChangeEnv)
    (j : Job) (ha : env.action = Except.ok ()) (hs : env.snapshot = Except.ok j)
    (hst : j.status = "voice_change_skipped") :
    (handleSkipVoiceChange s env).job = some j ∧
    (handleSkipVoiceChange s env).activeStep = 4 := by
  simp [handleSkipVoiceChange, ha, hs, fetchJobStatus, applyStatus, hst]

/-- A successful clean-audio action stores the fresh snapshot and sets step
5, provided the edited subtitles were already saved. -/
theorem handleCleanAudio_success (s : OrchState) (env : CleanAudioEnv)
    (r : CleanAudioResp) (j : Job)
    (hc : s.subtitleContent = s.editedSubtitleContent)
    (ha : env.action = Except.ok r) (hs : env.snapshot = Except.ok j) :
    (handleCleanAudio s env).job = some j ∧
    (handleCleanAudio s env).activeStep = 5 := by
  unfold handleCleanAudio
  simp only [hc, eq_self_iff_true, if_true, ha, hs]
  simp

/-- A successful create-final-video action stores the fresh snapshot and
sets step 6. -/
theorem handleCreateFinalVideo_success (s : OrchState) (env : CreateFinalVideoEnv)
    (r : FinalVideoResp) (j : Job) (ha : env.action = Except.ok r)
    (hs : env.snapshot = Except.ok j) :
    (handleCreateFinalVideo s env).job = some j ∧
    (handleCreateFinalVideo s env).activeStep = 6 := by
  unfold handleCreateFinalVideo
  simp only [ha, hs]
  simp

/-- One successful stage action lands exactly on the stage-table step of
the status its fresh snapshot reports. -/
theorem runStageAction_success (s : OrchState) (e : StageEnv)
    (hc : s.subtitleContent = s.editedSubtitleContent) (hsucc : StageSuccess e) :
    ∃ j, stageSnapshot e = Except.ok j ∧
      j.status = stageEntryStatus e ∧
      (runStageAction s e).job = some j ∧
      stepOfStatus? j.status = some ((runStageAction s e).activeStep) := by
  cases e with
  | extract env =>
    obtain ⟨⟨r, ha⟩, j, hs, hst⟩ := hsucc
    have h := handleExtractAudio_success s env r j ha hs
    exact ⟨j, hs, hst, h.1, by simp [runStageAction, hst, stepOfStatus?, h.2]⟩
  | genSubs env =>
    obtain ⟨⟨r, ha⟩, j, hs, hst⟩ := hsucc
    have h := handleGenerateSubtitles_success s env r j ha hs
    exact ⟨j, hs, hst, h.1, by simp [runStageAction, hst, stepOfStatus?, h.2]⟩
  | voice env =>
    obtain ⟨⟨r, ha, hskip, hpath, hcomp⟩, j, hs, hst⟩ := hsucc
    have h := handleChangeVoice_success s env r j hc ha hskip hpath hcomp hs
    exact ⟨j, hs, hst, h.1, by simp [runStageAction, hst, stepOfStatus?, h.2]⟩
  | skipVoice env =>
    obtain ⟨ha, j, hs, hst⟩ := hsucc
    have h := handleSkipVoiceChange_success s env j ha hs hst
    exact ⟨j, hs, hst, h.1, by simp [runStageAction, hst, stepOfStatus?, h.2]⟩
  | clean env =>
    obtain ⟨⟨r, ha⟩, j, hs, hst⟩ := hsucc
    have h := handleCleanAudio_success s env r j hc ha hs
    exact ⟨j, hs, hst, h.1, by simp [runStageAction, hst, stepOfStatus?, h.2]⟩
  | finalVideo env =>
    obtain ⟨⟨r, ha⟩, j, hs, hst⟩ := hsucc
    have h := handleCreateFinalVideo_success s env r j ha hs
    exact ⟨j, hs, hst, h.1, by simp [runStageAction, hst, stepOfStatus?, h.2]⟩

/-- Sequences of stage actions keep the subtitle editor in sync. -/
theorem runStages_content (s0 : OrchState) (l : List StageEnv)
    (hc : s0.subtitleContent = s0.editedSubtitleContent) :
    (runStages s0 l).subtitleContent = (runStages s0 l).editedSubtitleContent := by
  induction l generalizing s0 with
  | nil => exact hc
  | cons e rest ih =>
    simp only [runStages, List.foldl_cons]
    exact ih (runStageAction s0 e) (runStageAction_content s0 e hc)

/-- Peeling the last action off a prefix of a stage-action run. -/
theorem runStages_take_succ (s0 : OrchState) (l : List StageEnv) (i : Nat) (e : StageEnv)
    (h : l[i]? = some e) :
    runStages s0 (l.take (i + 1)) = runStageAction (runStages s0 (l.take i)) e := by
  unfold runStages
  rw [List.take_succ, h]
  simp [List.foldl_append]

/-- C1: in any run of stage actions in which every action succeeds and the
re-fetched snapshot reports the stage-table status of that action, the
derived active stage after each action equals the backend-reported status
mapped via the stage table, and in particular never exceeds it. -/
theorem active_stage_tracks_backend_status :
    ∀ (s0 : OrchState) (l : List StageEnv),
      s0.subtitleContent = s0.editedSubtitleContent →
      (∀ e ∈ l, StageSuccess e) →
      ∀ (i : Nat) (e : StageEnv), l[i]? = some e →
        ∃ j, stageSnapshot e = Except.ok j ∧
          j.status = stageEntryStatus e ∧
          (runStages s0 (l.take (i + 1))).job = some j ∧
          stepOfStatus? j.status = some ((runStages s0 (l.take (i + 1))).activeStep) ∧
          (∀ m, stepOfStatus? j.status = some m →
            (runStages s0 (l.take (i + 1))).activeStep ≤ m) := by
  intro s0 l hc hsucc i e h
  have hmem : e ∈ l := List.getElem?_mem h
  have hcpre : (runStages s0 (l.take i)).subtitleContent
      = (runStages s0 (l.take i)).editedSubtitleContent :=
    runStages_content s0 (l.take i) hc
  obtain ⟨j, hs, hst, hjob, hstep⟩ :=
    runStageAction_success (runStages s0 (l.take i)) e hcpre (hsucc e hmem)
  rw [runStages_take_succ s0 l i e h]
  refine ⟨j, hs, hst, hjob, hstep, ?_⟩
  intro m hm
  exact le_of_eq (Option.some.inj (hstep.symm.trans hm))

/-- C1 witness: a concrete two-action run (extract audio, then generate
subtitles) whose snapshots report the expected statuses: after the second
action the derived stage is the mapped status of the second snapshot. -/
theorem active_stage_tracks_backend_status_witness :
    ∃ j, stageSnapshot (StageEnv.genSubs
        ⟨Except.ok ⟨some "subs.srt", some "1"⟩, Except.ok none, Except.ok none,
         Except.ok jobSubtitled⟩) = Except.ok j ∧
      j.status = stageEntryStatus (StageEnv.genSubs
        ⟨Except.ok ⟨some "subs.srt", some "1"⟩, Except.ok none, Except.ok none,
         Except.ok jobSubtitled⟩) ∧
      (runStages initialState
        ([StageEnv.extract ⟨Except.ok ⟨some "audio.wav"⟩, Except.ok jobExtracted⟩,
          StageEnv.genSubs
            ⟨Except.ok ⟨some "subs.srt", some "1"⟩, Except.ok none, Except.ok none,
             Except.ok jobSubtitled⟩].take (1 + 1))).job = some j ∧
      stepOfStatus? j.status = some ((runStages initialState
        ([StageEnv.extract ⟨Except.ok ⟨some "audio.wav"⟩, Except.ok jobExtracted⟩,
          StageEnv.genSubs
            ⟨Except.ok ⟨some "subs.srt", some "1"⟩, Except.ok none, Except.ok none,
             Except.ok jobSubtitled⟩].take (1 + 1))).activeStep) ∧
      (∀ m, stepOfStatus? j.status = some m →
        (runStages initialState
          ([StageEnv.extract ⟨Except.ok ⟨some "audio.wav"⟩, Except.ok jobExtracted⟩,
            StageEnv.genSubs
              ⟨Except.ok ⟨some "subs.srt", some "1"⟩, Except.ok none, Except.ok none,
               Except.ok jobSubtitled⟩].take (1 + 1))).activeStep ≤ m) :=
  active_stage_tracks_backend_status initialState
    [StageEnv.extract ⟨Except.ok ⟨some "audio.wav"⟩, Except.ok jobExtracted⟩,
     StageEnv.genSubs
       ⟨Except.ok ⟨some "subs.srt", some "1"⟩, Except.ok none, Except.ok none,
        Except.ok jobSubtitled⟩]
    rfl
    (by
      intro e he
      rcases List.mem_cons.mp he with rfl | he2
      · exact ⟨⟨_, rfl⟩, jobExtracted, rfl, rfl⟩
      · rcases List.mem_cons.mp he2 with rfl | he3
        · exact ⟨⟨_, rfl⟩, jobSubtitled, rfl, rfl⟩
        · simp at he3)
    1
    (StageEnv.genSubs
      ⟨Except.ok ⟨some "subs.srt", some "1"⟩, Except.ok none, Except.ok none,
       Except.ok jobSubtitled⟩)
    rfl

end VideoPro
